import Mathlib

/-!
Verification of the metadata extraction dispatch engine of the Locard.IA
repository: a shallow embedding, in Lean 4, of the routing/consistency core
(`src/metadata/metadata_router.py`, `src/metadata/Magic_Scan.py`, the
extractor modules `pdf_metadata.py`, `text_metadata.py`,
`archive_metadata.py`, `ddd_metadata.py`) together with theorems settling
the specification's claims about it.

Python strings are modelled as `List Char`, bytes as `List Nat`, SQLite
tables as association lists keyed by the integer primary key, and calls
into external libraries (pypdf, zipfile, python-magic, the filesystem) as
explicit oracle structures whose fields are `Except`-valued where the
library call may raise.
-/

namespace Locard

/-- Python `str` is modelled as a list of characters. -/
abbrev PyStr := List Char

/-- The whitespace characters stripped by Python's `str.strip()`
(restricted to the ASCII range, which is all this corpus uses). -/
def isPyWS (c : Char) : Bool :=
  c = ' ' || c = '\t' || c = '\n' || c = '\x0d' || c = '\x0b' || c = '\x0c'

/-- Python `str.strip()`: drop leading and trailing whitespace. -/
def pyStrip (s : PyStr) : PyStr :=
  ((s.dropWhile isPyWS).reverse.dropWhile isPyWS).reverse

/-- Python `str.lower()` (ASCII case folding suffices for this corpus). -/
def pyLower (s : PyStr) : PyStr := s.map Char.toLower

/-- Python `os.path.basename` on a POSIX path: the suffix after the last
`/` (empty when the path ends in `/`). -/
def pyBasename (p : PyStr) : PyStr :=
  p.foldl (fun acc c => if c = '/' then [] else acc ++ [c]) []

/-- Split a string at its last `.`, returning the parts before and after
it, or `none` when it has no dot. -/
def lastDotSplit (l : PyStr) : Option (PyStr × PyStr) :=
  if l.contains '.' then
    let after := (l.reverse.takeWhile (fun c => c ≠ '.')).reverse
    some (l.take (l.length - after.length - 1), after)
  else none

/-- Python `os.path.splitext(p)[1]`: the extension of the basename,
empty when the basename has no dot or only leading dots. -/
def pySplitextExt (p : PyStr) : PyStr :=
  match lastDotSplit (pyBasename p) with
  | none => []
  | some (bef, aft) => if bef.all (fun c => c = '.') then [] else '.' :: aft

/-- Truthiness of an optional Python string: `None` and `""` are falsy. -/
def optTruthy (o : Option PyStr) : Bool :=
  match o with
  | none => false
  | some s => s ≠ []

/-! ## The routing tables of `metadata_router.py` -/

/-- The thirteen format families, one per `populate_*_metadata` collector
module imported at the top of `metadata_router.py`. -/
inductive Family where
  | image | pdf | office | audio | video | archive | exe | code | text
  | tabular | database | threeD | diskImage
  deriving DecidableEq, Repr

/-- `populate_func.__module__`, as interpolated into the SUCCESS status. -/
def Family.moduleName : Family → PyStr
  | .image => "metadata.image_metadata".toList
  | .pdf => "metadata.pdf_metadata".toList
  | .office => "metadata.office_metadata".toList
  | .audio => "metadata.audio_metadata".toList
  | .video => "metadata.video_metadata".toList
  | .archive => "metadata.archive_metadata".toList
  | .exe => "metadata.exe_metadata".toList
  | .code => "metadata.sourcecode_metadata".toList
  | .text => "metadata.text_metadata".toList
  | .tabular => "metadata.tabulardata_metadata".toList
  | .database => "metadata.database_metadata".toList
  | .threeD => "metadata.ddd_metadata".toList
  | .diskImage => "metadata.img_dsk_metadata".toList

set_option maxHeartbeats 1000000 in
/-- The `META_ROUTER` dict of `metadata_router.py` (lines 28-137), in
source order; keys are unique so an association list is equivalent. -/
def META_ROUTER : List (PyStr × Family) :=
  [(".jpg".toList, Family.image), (".jpeg".toList, Family.image),
   (".png".toList, Family.image), (".gif".toList, Family.image),
   (".bmp".toList, Family.image), (".tiff".toList, Family.image),
   (".tif".toList, Family.image), (".webp".toList, Family.image),
   (".ico".toList, Family.image), (".svg".toList, Family.image),
   (".xcf".toList, Family.image), (".heic".toList, Family.image),
   (".pdf".toList, Family.pdf),
   (".docx".toList, Family.office), (".doc".toList, Family.office),
   (".xlsx".toList, Family.office), (".xls".toList, Family.office),
   (".pptx".toList, Family.office), (".ppt".toList, Family.office),
   (".odt".toList, Family.office), (".ods".toList, Family.office),
   (".odp".toList, Family.office), (".rtf".toList, Family.office),
   (".mp3".toList, Family.audio), (".wav".toList, Family.audio),
   (".flac".toList, Family.audio), (".ogg".toList, Family.audio),
   (".m4a".toList, Family.audio), (".aac".toList, Family.audio),
   (".wma".toList, Family.audio),
   (".mp4".toList, Family.video), (".mkv".toList, Family.video),
   (".avi".toList, Family.video), (".mov".toList, Family.video),
   (".webm".toList, Family.video), (".flv".toList, Family.video),
   (".m4v".toList, Family.video), (".wmv".toList, Family.video),
   (".zip".toList, Family.archive), (".rar".toList, Family.archive),
   (".tar".toList, Family.archive), (".gz".toList, Family.archive),
   (".7z".toList, Family.archive), (".bz2".toList, Family.archive),
   (".xz".toList, Family.archive), (".iso".toList, Family.archive),
   (".exe".toList, Family.exe), (".dll".toList, Family.exe),
   (".sys".toList, Family.exe), (".msi".toList, Family.exe),
   (".bin".toList, Family.exe), (".elf".toList, Family.exe),
   (".so".toList, Family.exe), (".dylib".toList, Family.exe),
   (".abi3.so".toList, Family.exe), (".pak".toList, Family.exe),
   (".dat".toList, Family.exe), (".sav".toList, Family.exe),
   (".py".toList, Family.code), (".pyi".toList, Family.code), (".pyx".toList, Family.code),
   (".js".toList, Family.code), (".mjs".toList, Family.code), (".ts".toList, Family.code),
   (".html".toList, Family.code), (".htm".toList, Family.code),
   (".css".toList, Family.code), (".scss".toList, Family.code),
   (".java".toList, Family.code),
   (".c".toList, Family.code), (".h".toList, Family.code),
   (".cpp".toList, Family.code), (".hpp".toList, Family.code),
   (".php".toList, Family.code),
   (".rb".toList, Family.code),
   (".go".toList, Family.code),
   (".rs".toList, Family.code),
   (".sh".toList, Family.code), (".bash".toList, Family.code), (".bat".toList, Family.code),
   (".pl".toList, Family.code), (".pm".toList, Family.code),
   (".lua".toList, Family.code), (".sql".toList, Family.code),
   (".txt".toList, Family.text), (".md".toList, Family.text),
   (".markdown".toList, Family.text), (".rst".toList, Family.text),
   (".json".toList, Family.text), (".xml".toList, Family.text),
   (".yaml".toList, Family.text), (".yml".toList, Family.text),
   (".toml".toList, Family.text), (".ini".toList, Family.text),
   (".cfg".toList, Family.text), (".conf".toList, Family.text),
   (".log".toList, Family.text),
   (".sample".toList, Family.text),
   (".man".toList, Family.text), (".7".toList, Family.text),
   (".apache".toList, Family.text), (".bsd".toList, Family.text),
   (".typed".toList, Family.text),
   (".csv".toList, Family.tabular), (".tsv".toList, Family.tabular),
   (".parquet".toList, Family.tabular),
   (".nc".toList, Family.tabular),
   (".sqlite".toList, Family.database), (".db".toList, Family.database),
   (".db3".toList, Family.database), (".sqlite3".toList, Family.database),
   (".mdb".toList, Family.database), (".accdb".toList, Family.database),
   (".obj".toList, Family.threeD), (".stl".toList, Family.threeD),
   (".fbx".toList, Family.threeD), (".gltf".toList, Family.threeD),
   (".glb".toList, Family.threeD), (".ply".toList, Family.threeD),
   (".step".toList, Family.threeD), (".stp".toList, Family.threeD),
   (".img".toList, Family.diskImage),
   (".vhd".toList, Family.diskImage),
   (".vmdk".toList, Family.diskImage),
   (".dmg".toList, Family.diskImage),
   ("makefile".toList, Family.code),
   ("dockerfile".toList, Family.code),
   ("jenkinsfile".toList, Family.code),
   ("gemfile".toList, Family.code),
   ("vagrantfile".toList, Family.code),
   ("requirements.txt".toList, Family.code),
   ("pipfile".toList, Family.code),
   ("license".toList, Family.text),
   ("license.txt".toList, Family.text),
   ("readme".toList, Family.text),
   ("notice".toList, Family.text)]

/-- `META_ROUTER.get(key)`. -/
def metaRouterLookup (key : PyStr) : Option Family :=
  List.lookup key META_ROUTER

/-- The `IGNORED_FILES` set of `metadata_router.py` (lines 140-144). -/
def IGNORED_FILES : List PyStr :=
  [".ds_store".toList, ".localized".toList, "thumbs.db".toList,
   "desktop.ini".toList, ".metadata".toList, ".recommenders".toList,
   "pkginfo".toList, ".gitignore".toList, ".gitattributes".toList,
   "record".toList, "wheel".toList, "metadata".toList, "installer".toList,
   "requested".toList, "description".toList, "exclude".toList]

/-! ## The dispatcher and the Population Driver loop -/

/-- The behaviour of the thirteen `populate_*_metadata` collectors as seen
by the dispatcher: for a family and a file id, either complete normally or
raise with an exception message. -/
abbrev PopulateOracle := Family → Nat → Except PyStr Unit

def statusSkipNoExtension : PyStr := "SKIPPED (No Extension)".toList
def statusSkipNoCollector : PyStr := "SKIPPED (No Collector)".toList
def statusSkipIgnored : PyStr := "SKIPPED (Ignored System File)".toList

def statusSuccess (fam : Family) : PyStr :=
  "SUCCESS (".toList ++ fam.moduleName ++ ")".toList

def statusError (msg : PyStr) : PyStr := "ERROR: ".toList ++ msg

/-- `dispatch_metadata_extraction` (`metadata_router.py` lines 146-164):
normalize the token to lowercase, look it up in `META_ROUTER`, call the
collector catching any exception, and return the status string. -/
def dispatch_metadata_extraction (oracle : PopulateOracle) (file_id : Nat)
    (extension : Option PyStr) : PyStr :=
  match extension with
  | none => statusSkipNoExtension
  | some e =>
    if e = [] then statusSkipNoExtension
    else
      let ext_norm := pyLower e
      match metaRouterLookup ext_norm with
      | some fam =>
        match oracle fam file_id with
        | .ok _ => statusSuccess fam
        | .error msg => statusError msg
      | none => statusSkipNoCollector

/-- One row of the `file` table as selected by the Population Driver:
`SELECT id, path, true_extension, decl_extension FROM file ORDER BY id`. -/
structure FileRow where
  id : Nat
  path : PyStr
  trueExt : Option PyStr
  declExt : Option PyStr
  deriving DecidableEq

/-- The ignore test of `run_global_metadata_population` (line 224):
`low_filename in IGNORED_FILES or (true_ext and true_ext.lower() in
IGNORED_FILES)`. -/
def ignoredCheck (lowFilename : PyStr) (trueExt : Option PyStr) : Bool :=
  IGNORED_FILES.contains lowFilename ||
    (optTruthy trueExt &&
      IGNORED_FILES.contains (pyLower (trueExt.getD [])))

/-- The extension-choice logic of branch C of the driver (lines 234-241):
prefer a non-empty stripped `true_extension`; otherwise fall back to the
stripped `decl_extension`, prefixing a dot when it lacks one. -/
def chooseTargetExt (trueExt declExt : Option PyStr) : Option PyStr :=
  if optTruthy trueExt && pyStrip (trueExt.getD []) ≠ [] then
    some (pyStrip (trueExt.getD []))
  else if optTruthy declExt && pyStrip (declExt.getD []) ≠ [] then
    let s := pyStrip (declExt.getD [])
    some (if ['.'].isPrefixOf s then s else '.' :: s)
  else none

/-- The per-file body of the driver loop (lines 213-243): ignore check
first, then literal-name dispatch, then extension dispatch. -/
def processRow (oracle : PopulateOracle) (row : FileRow) : PyStr :=
  let filename := pyBasename row.path
  let lowFilename := pyLower filename
  if ignoredCheck lowFilename row.trueExt then
    statusSkipIgnored
  else if (metaRouterLookup lowFilename).isSome then
    dispatch_metadata_extraction oracle row.id (some lowFilename)
  else
    dispatch_metadata_extraction oracle row.id
      (chooseTargetExt row.trueExt row.declExt)

/-- The three outcome buckets of the driver's counters. -/
inductive Bucket where
  | ok | skipped | error
  deriving DecidableEq, Repr

/-- The counter-update classification (lines 246-252): `startswith
"SUCCESS"`, else `startswith "SKIPPED"`, else error. -/
def classifyStatus (status : PyStr) : Bucket :=
  if "SUCCESS".toList.isPrefixOf status then .ok
  else if "SKIPPED".toList.isPrefixOf status then .skipped
  else .error

/-- The lines the driver writes into `metadata_scan_log.txt`, by kind. -/
inductive LogEntry where
  /-- `--- START SCAN: ... ---` -/
  | startScan
  /-- `DB Path: ...` -/
  | dbPath
  /-- the `-` * 50 separator -/
  | separator
  /-- `Empty DB - No files to scan.` -/
  | emptyDb
  /-- `[status] : filename` -/
  | perFile (status filename : PyStr)
  /-- `--- END SCAN: ... ---` -/
  | endScan
  /-- `RESULTATS : OK=.. | IGNORES=.. | ERREURS=..` -/
  | summary (ok ignored error : Nat)
  deriving DecidableEq

/-- Running counters of the driver loop. -/
structure Counters where
  ok : Nat
  ignored : Nat
  error : Nat
  deriving DecidableEq

/-- One iteration of the driver loop: compute the status, bump the
matching counter, append the log line. -/
def scanStep (oracle : PopulateOracle) (acc : Counters × List LogEntry)
    (row : FileRow) : Counters × List LogEntry :=
  let status := processRow oracle row
  let c := acc.1
  let c' : Counters :=
    match classifyStatus status with
    | .ok => { c with ok := c.ok + 1 }
    | .skipped => { c with ignored := c.ignored + 1 }
    | .error => { c with error := c.error + 1 }
  (c', acc.2 ++ [.perFile status (pyBasename row.path)])

/-- `run_global_metadata_population` (lines 167-278) as the sequence of
log entries it writes for a given list of `file` rows: header, then
either the empty-DB message, or one line per file followed by the
end-of-scan footer and the counters summary. -/
def runLog (oracle : PopulateOracle) (rows : List FileRow) : List LogEntry :=
  [.startScan, .dbPath, .separator] ++
  (if rows.length = 0 then [.emptyDb]
   else
     let res := rows.foldl (scanStep oracle) (⟨0, 0, 0⟩, [])
     res.2 ++ [.separator, .endScan,
               .summary res.1.ok res.1.ignored res.1.error, .endScan])

/-- Is a log entry a per-file outcome line? -/
def LogEntry.isPerFile : LogEntry → Bool
  | .perFile _ _ => true
  | _ => false

/-- Is a log entry the counters summary line? -/
def LogEntry.isSummary : LogEntry → Bool
  | .summary _ _ _ => true
  | _ => false

/-- Dispatch once the lowercased lookup key is fixed: the tail of
`dispatch_metadata_extraction` after `ext_norm = extension.lower()`. -/
def dispatchByKey (oracle : PopulateOracle) (file_id : Nat)
    (key : PyStr) : PyStr :=
  match metaRouterLookup key with
  | some fam =>
    match oracle fam file_id with
    | .ok _ => statusSuccess fam
    | .error msg => statusError msg
  | none => statusSkipNoCollector

/-- A token with exactly one leading dot. -/
def singleLeadingDot (s : PyStr) : Bool :=
  ['.'].isPrefixOf s && !(['.', '.'].isPrefixOf s)

/-- A collector oracle that always completes normally. -/
def okOracle : PopulateOracle := fun _ _ => .ok ()

/-- A collector oracle that always raises with the given message. -/
def failOracle (msg : PyStr) : PopulateOracle := fun _ _ => .error msg

/-! ## Structural lemmas about the driver loop -/

lemma dispatch_eq_byKey (oracle : PopulateOracle) (fid : Nat) (e : PyStr)
    (he : e ≠ []) :
    dispatch_metadata_extraction oracle fid (some e) =
      dispatchByKey oracle fid (pyLower e) := by
  simp [dispatch_metadata_extraction, dispatchByKey, he]

lemma foldl_scanStep_log (oracle : PopulateOracle) :
    ∀ (rows : List FileRow) (c : Counters) (l : List LogEntry),
      (rows.foldl (scanStep oracle) (c, l)).2 =
        l ++ rows.map
          (fun r => LogEntry.perFile (processRow oracle r) (pyBasename r.path)) := by
  intro rows
  induction rows with
  | nil => intro c l; simp
  | cons r rs ih =>
    intro c l
    rw [List.foldl_cons]
    have hsnd : (scanStep oracle (c, l) r).2 =
        l ++ [LogEntry.perFile (processRow oracle r) (pyBasename r.path)] := rfl
    calc (rs.foldl (scanStep oracle) (scanStep oracle (c, l) r)).2
        = (scanStep oracle (c, l) r).2 ++ rs.map
            (fun r => LogEntry.perFile (processRow oracle r) (pyBasename r.path)) := by
          rw [← ih (scanStep oracle (c, l) r).1 (scanStep oracle (c, l) r).2]
      _ = l ++ (r :: rs).map
            (fun r => LogEntry.perFile (processRow oracle r) (pyBasename r.path)) := by
          rw [hsnd]; simp

lemma foldl_scanStep_counts (oracle : PopulateOracle) :
    ∀ (rows : List FileRow) (c : Counters) (l : List LogEntry),
      (rows.foldl (scanStep oracle) (c, l)).1.ok =
        c.ok + (rows.filter
          (fun r => classifyStatus (processRow oracle r) == Bucket.ok)).length ∧
      (rows.foldl (scanStep oracle) (c, l)).1.ignored =
        c.ignored + (rows.filter
          (fun r => classifyStatus (processRow oracle r) == Bucket.skipped)).length ∧
      (rows.foldl (scanStep oracle) (c, l)).1.error =
        c.error + (rows.filter
          (fun r => classifyStatus (processRow oracle r) == Bucket.error)).length := by
  intro rows
  induction rows with
  | nil => intro c l; simp
  | cons r rs ih =>
    intro c l
    rw [List.foldl_cons]
    obtain ⟨ih1, ih2, ih3⟩ :=
      ih (scanStep oracle (c, l) r).1 (scanStep oracle (c, l) r).2
    cases hb : classifyStatus (processRow oracle r) with
    | ok =>
      have hc : (scanStep oracle (c, l) r).1 =
          { c with ok := c.ok + 1 } := by simp [scanStep, hb]
      refine ⟨?_, ?_, ?_⟩ <;>
        simp only [ih1, ih2, ih3, hc, List.filter_cons, hb] <;> simp <;> omega
    | skipped =>
      have hc : (scanStep oracle (c, l) r).1 =
          { c with ignored := c.ignored + 1 } := by simp [scanStep, hb]
      refine ⟨?_, ?_, ?_⟩ <;>
        simp only [ih1, ih2, ih3, hc, List.filter_cons, hb] <;> simp <;> omega
    | error =>
      have hc : (scanStep oracle (c, l) r).1 =
          { c with error := c.error + 1 } := by simp [scanStep, hb]
      refine ⟨?_, ?_, ?_⟩ <;>
        simp only [ih1, ih2, ih3, hc, List.filter_cons, hb] <;> simp <;> omega

/-- The three outcome buckets partition any row list. -/
lemma classify_partition (oracle : PopulateOracle) (rows : List FileRow) :
    (rows.filter
      (fun r => classifyStatus (processRow oracle r) == Bucket.ok)).length +
    (rows.filter
      (fun r => classifyStatus (processRow oracle r) == Bucket.skipped)).length +
    (rows.filter
      (fun r => classifyStatus (processRow oracle r) == Bucket.error)).length =
      rows.length := by
  induction rows with
  | nil => simp
  | cons r rs ih =>
    cases hb : classifyStatus (processRow oracle r) <;>
      simp only [List.filter_cons, hb] <;> simp <;> omega

lemma runLog_perFile (oracle : PopulateOracle) (rows : List FileRow)
    (h : rows ≠ []) :
    (runLog oracle rows).filter LogEntry.isPerFile =
      rows.map
        (fun r => LogEntry.perFile (processRow oracle r) (pyBasename r.path)) := by
  have hlen : ¬ rows.length = 0 := by simpa using h
  simp only [runLog, if_neg hlen, foldl_scanStep_log, List.nil_append]
  rw [List.filter_append, List.filter_append]
  have h1 : List.filter LogEntry.isPerFile
      [LogEntry.startScan, LogEntry.dbPath, LogEntry.separator] = [] := rfl
  have h2 : List.filter LogEntry.isPerFile
      [LogEntry.separator, LogEntry.endScan,
       LogEntry.summary (rows.foldl (scanStep oracle) (⟨0,0,0⟩, [])).1.ok
         (rows.foldl (scanStep oracle) (⟨0,0,0⟩, [])).1.ignored
         (rows.foldl (scanStep oracle) (⟨0,0,0⟩, [])).1.error,
       LogEntry.endScan] = [] := rfl
  rw [h1, h2, List.nil_append, List.append_nil]
  apply List.filter_eq_self.mpr
  intro e he
  obtain ⟨r, _, rfl⟩ := List.mem_map.mp he
  rfl

lemma runLog_summary_mem (oracle : PopulateOracle) (rows : List FileRow)
    (h : rows ≠ []) (a b c : Nat)
    (hmem : LogEntry.summary a b c ∈ runLog oracle rows) :
    a = (rows.filter
      (fun r => classifyStatus (processRow oracle r) == Bucket.ok)).length ∧
    b = (rows.filter
      (fun r => classifyStatus (processRow oracle r) == Bucket.skipped)).length ∧
    c = (rows.filter
      (fun r => classifyStatus (processRow oracle r) == Bucket.error)).length := by
  have hlen : ¬ rows.length = 0 := by simpa using h
  obtain ⟨h1, h2, h3⟩ := foldl_scanStep_counts oracle rows ⟨0, 0, 0⟩ []
  simp only [runLog, if_neg hlen, List.mem_append, List.mem_cons,
    List.mem_singleton, List.not_mem_nil, or_false] at hmem
  rcases hmem with (h' | h' | h') | h' | (h' | h' | h' | h')
  · exact absurd h' (by simp)
  · exact absurd h' (by simp)
  · exact absurd h' (by simp)
  · exfalso
    rw [foldl_scanStep_log] at h'
    simp only [List.nil_append] at h'
    obtain ⟨r, _, hr⟩ := List.mem_map.mp h'
    exact LogEntry.noConfusion hr
  · exact absurd h' (by simp)
  · exact absurd h' (by simp)
  · injection h' with ha hb hc
    exact ⟨by rw [ha, h1]; simp, by rw [hb, h2]; simp, by rw [hc, h3]; simp⟩
  · exact absurd h' (by simp)

/-- C6 (amended to non-empty runs): for a run over N ≥ 1 input files, the
run log contains exactly N per-file outcome lines and exactly one summary
line; the summary's three counters count, respectively, the files whose
status string classifies as success, skipped and error (so every per-file
outcome is counted in exactly one bucket), and the three counters sum
to N. -/
theorem run_log_completeness (oracle : PopulateOracle) (rows : List FileRow)
    (h : rows ≠ []) :
    ((runLog oracle rows).filter LogEntry.isPerFile).length = rows.length ∧
    ((runLog oracle rows).filter LogEntry.isSummary).length = 1 ∧
    (∀ a b c, LogEntry.summary a b c ∈ runLog oracle rows →
      a = (rows.filter
        (fun r => classifyStatus (processRow oracle r) == Bucket.ok)).length ∧
      b = (rows.filter
        (fun r => classifyStatus (processRow oracle r) == Bucket.skipped)).length ∧
      c = (rows.filter
        (fun r => classifyStatus (processRow oracle r) == Bucket.error)).length ∧
      a + b + c = rows.length) := by
  have hlen : ¬ rows.length = 0 := by simpa using h
  refine ⟨?_, ?_, ?_⟩
  · rw [runLog_perFile oracle rows h, List.length_map]
  · simp only [runLog, if_neg hlen, List.filter_append, List.length_append,
      foldl_scanStep_log, List.nil_append]
    have hmap : (List.filter LogEntry.isSummary
        (rows.map (fun r =>
          LogEntry.perFile (processRow oracle r) (pyBasename r.path)))) = [] := by
      apply List.filter_eq_nil_iff.mpr
      intro e he
      obtain ⟨r, _, rfl⟩ := List.mem_map.mp he
      simp [LogEntry.isSummary]
    rw [hmap]
    simp [LogEntry.isSummary]
  · intro a b c hmem
    obtain ⟨ha, hb, hc⟩ := runLog_summary_mem oracle rows h a b c hmem
    exact ⟨ha, hb, hc, by rw [ha, hb, hc]; exact classify_partition oracle rows⟩

/-- C6 counterexample: a run over an empty file set (N = 0) writes the
`Empty DB` message and returns early, so its log contains no summary line
at all — the claim's "one summary line" fails for N = 0. -/
theorem run_log_no_summary_when_empty :
    (runLog okOracle []).filter LogEntry.isSummary = [] := rfl

/-- Witness for the amended C6 at a concrete one-row run. -/
theorem run_log_completeness_witness :
    ((runLog okOracle [⟨1, "/a/x.pdf".toList, none, some "pdf".toList⟩]).filter
      LogEntry.isPerFile).length = 1 ∧
    ((runLog okOracle [⟨1, "/a/x.pdf".toList, none, some "pdf".toList⟩]).filter
      LogEntry.isSummary).length = 1 := by
  have h := run_log_completeness okOracle
    [⟨1, "/a/x.pdf".toList, none, some "pdf".toList⟩] (by simp)
  exact ⟨h.1, h.2.1⟩

/-- C3 (amended to non-empty runs): over any N ≥ 1 rows and any collector
behaviour, the per-file log lines are exactly one per row (each depending
only on its own row), a summary whose counts sum to N is always written,
and an exception raised by an invoked collector is caught by the
dispatcher and turned into the `ERROR:` status for that file. -/
theorem driver_error_containment (oracle : PopulateOracle)
    (rows : List FileRow) (h : rows ≠ []) :
    (runLog oracle rows).filter LogEntry.isPerFile =
      rows.map (fun r =>
        LogEntry.perFile (processRow oracle r) (pyBasename r.path)) ∧
    ((runLog oracle rows).filter LogEntry.isPerFile).length = rows.length ∧
    (∃ a b c, LogEntry.summary a b c ∈ runLog oracle rows ∧
      a + b + c = rows.length) ∧
    (∀ fam fid msg tok, oracle fam fid = .error msg → tok ≠ [] →
      metaRouterLookup (pyLower tok) = some fam →
      dispatch_metadata_extraction oracle fid (some tok) = statusError msg) := by
  have hlen : ¬ rows.length = 0 := by simpa using h
  refine ⟨runLog_perFile oracle rows h, ?_, ?_, ?_⟩
  · rw [runLog_perFile oracle rows h, List.length_map]
  · obtain ⟨h1, h2, h3⟩ := foldl_scanStep_counts oracle rows ⟨0, 0, 0⟩ []
    refine ⟨(rows.foldl (scanStep oracle) (⟨0,0,0⟩, [])).1.ok,
      (rows.foldl (scanStep oracle) (⟨0,0,0⟩, [])).1.ignored,
      (rows.foldl (scanStep oracle) (⟨0,0,0⟩, [])).1.error, ?_, ?_⟩
    · simp only [runLog, if_neg hlen]
      simp [List.mem_append]
    · rw [h1, h2, h3]
      simpa using classify_partition oracle rows
  · intro fam fid msg tok hor htok hkey
    rw [dispatch_eq_byKey oracle fid tok htok]
    simp [dispatchByKey, hkey, hor]

/-- C3 counterexample: for an empty input file set the driver returns
right after the `Empty DB` message, so no summary with success/skip/error
counts is written — "a completed run always produces a summary" fails at
N = 0. -/
theorem driver_no_summary_when_empty :
    ¬ ∃ a b c, LogEntry.summary a b c ∈ runLog (failOracle "boom".toList) [] := by
  rintro ⟨a, b, c, hmem⟩
  simp [runLog] at hmem

/-- Witness for the amended C3: a one-row run whose only collector call
raises still logs the row as `ERROR:` and writes a summary summing to 1. -/
theorem driver_error_containment_witness :
    (∃ a b c, LogEntry.summary a b c ∈
      runLog (failOracle "boom".toList)
        [⟨1, "/a/x.pdf".toList, none, some "pdf".toList⟩] ∧ a + b + c = 1) ∧
    dispatch_metadata_extraction (failOracle "boom".toList) 1
      (some ".pdf".toList) = statusError "boom".toList := by
  have h := driver_error_containment (failOracle "boom".toList)
    [⟨1, "/a/x.pdf".toList, none, some "pdf".toList⟩] (by simp)
  refine ⟨by simpa using h.2.2.1, ?_⟩
  exact h.2.2.2 Family.pdf 1 "boom".toList ".pdf".toList rfl (by decide) (by decide)

/-- C1: in branch C of the driver (file neither ignore-listed nor a
literal-name match), the routing token is the stripped `true_extension`
whenever that is non-empty, whatever the declared extension; only when
`true_extension` is null or empty after stripping does the driver fall
back to the declared extension, prefixing a dot when absent — the
resulting token (a single leading dot when the declared extension does
not itself begin with a dot pile-up) is lowercased by the dispatcher
before the `META_ROUTER` lookup. -/
theorem routing_true_extension_precedence (oracle : PopulateOracle)
    (fid : Nat) :
    (∀ t d, pyStrip t ≠ [] →
      chooseTargetExt (some t) d = some (pyStrip t)) ∧
    (∀ tOpt d, (optTruthy tOpt = false ∨ pyStrip (tOpt.getD []) = []) →
      pyStrip d ≠ [] →
      chooseTargetExt tOpt (some d) =
        some (if ['.'].isPrefixOf (pyStrip d) then pyStrip d
              else '.' :: pyStrip d) ∧
      (¬ ['.', '.'].isPrefixOf (pyStrip d) = true →
        singleLeadingDot (if ['.'].isPrefixOf (pyStrip d) then pyStrip d
                          else '.' :: pyStrip d) = true) ∧
      dispatch_metadata_extraction oracle fid
          (some (if ['.'].isPrefixOf (pyStrip d) then pyStrip d
                 else '.' :: pyStrip d)) =
        dispatchByKey oracle fid
          (pyLower (if ['.'].isPrefixOf (pyStrip d) then pyStrip d
                    else '.' :: pyStrip d))) ∧
    (∀ row : FileRow,
      ignoredCheck (pyLower (pyBasename row.path)) row.trueExt = false →
      metaRouterLookup (pyLower (pyBasename row.path)) = none →
      processRow oracle row =
        dispatch_metadata_extraction oracle row.id
          (chooseTargetExt row.trueExt row.declExt)) := by
  refine ⟨?_, ?_, ?_⟩
  · intro t d hst
    have ht : t ≠ [] := fun h => hst (by rw [h]; rfl)
    simp [chooseTargetExt, optTruthy, ht, hst]
  · intro tOpt d hfb hsd
    have hd : d ≠ [] := fun h => hsd (by rw [h]; rfl)
    have hcond :
        (optTruthy tOpt && !(pyStrip (tOpt.getD []) == [])) = false := by
      rcases hfb with h | h
      · simp [h]
      · simp [h]
    have hchoose : chooseTargetExt tOpt (some d) =
        some (if ['.'].isPrefixOf (pyStrip d) then pyStrip d
              else '.' :: pyStrip d) := by
      simp only [chooseTargetExt]
      rw [if_neg (by simpa using hcond)]
      simp [optTruthy, hd, hsd]
    refine ⟨hchoose, ?_, ?_⟩
    · intro hdd
      have hdd' : ['.', '.'].isPrefixOf (pyStrip d) = false :=
        Bool.eq_false_iff.mpr hdd
      by_cases hp : ['.'].isPrefixOf (pyStrip d) = true
      · simp [singleLeadingDot, hp, hdd']
      · have hp' : ['.'].isPrefixOf (pyStrip d) = false :=
          Bool.eq_false_iff.mpr hp
        have h1 : ['.'].isPrefixOf ('.' :: pyStrip d) = true := by
          simp [List.isPrefixOf]
        have h2 : ['.', '.'].isPrefixOf ('.' :: pyStrip d) =
            ['.'].isPrefixOf (pyStrip d) := by
          simp [List.isPrefixOf]
        simp [singleLeadingDot, hp', h1, h2]
    · have htok : (if ['.'].isPrefixOf (pyStrip d) then pyStrip d
          else '.' :: pyStrip d) ≠ [] := by
        by_cases hp : ['.'].isPrefixOf (pyStrip d) = true
        · simp only [hp, if_true]; exact hsd
        · have hp' : ['.'].isPrefixOf (pyStrip d) = false :=
            Bool.eq_false_iff.mpr hp
          simp [hp']
      exact dispatch_eq_byKey oracle fid _ htok
  · intro row hig hlit
    simp [processRow, hig, hlit]

/-- Witness for C1: a row with a whitespace-padded true extension routes
by the stripped true extension over the declared one; a row with no true
extension routes by the dot-prefixed, lowercased declared extension. -/
theorem routing_true_extension_precedence_witness :
    chooseTargetExt (some " .DocX ".toList) (some "pdf".toList) =
      some ".DocX".toList ∧
    chooseTargetExt none (some "txt".toList) = some ".txt".toList ∧
    singleLeadingDot ".txt".toList = true ∧
    processRow okOracle ⟨3, "/home/a/report.xyz".toList, none,
        some "txt".toList⟩ =
      dispatch_metadata_extraction okOracle 3
        (chooseTargetExt none (some "txt".toList)) := by
  have h := routing_true_extension_precedence okOracle 3
  have h2 := h.2.1 none "txt".toList (Or.inl rfl) (by decide)
  refine ⟨?_, ?_, ?_, ?_⟩
  · exact (h.1 " .DocX ".toList (some "pdf".toList) (by decide)).trans
      (by decide)
  · exact h2.1.trans (by decide)
  · have := h2.2.1 (by decide)
    revert this
    decide
  · exact h.2.2 ⟨3, "/home/a/report.xyz".toList, none, some "txt".toList⟩
      (by decide) (by decide)

/-- C5 counterexample: the driver consults the ignore-list before the
literal-name table and the ignore test also matches the sniffed
true_extension, so a file named `LICENSE` whose `true_extension` is the
ignore-listed token `metadata` is reported as ignored, not dispatched to
the text extractor. -/
theorem license_reported_ignored :
    processRow okOracle
      ⟨1, "/x/LICENSE".toList, some "metadata".toList, none⟩ =
    statusSkipIgnored := by decide

/-- C5 (amended): the ignore check (lowercase filename, or lowercased
non-empty true_extension, against `IGNORED_FILES`) runs before the
literal-name lookup; no key of `META_ROUTER` is ignore-listed, so a file
whose lowercase name matches a literal-name entry is dispatched by that
name whenever the ignore check fails, and a file named `LICENSE` is then
dispatched to the text collector. -/
theorem literal_name_dispatch (oracle : PopulateOracle) (row : FileRow)
    (hig : ignoredCheck (pyLower (pyBasename row.path)) row.trueExt = false)
    (hlit : (metaRouterLookup (pyLower (pyBasename row.path))).isSome) :
    processRow oracle row =
      dispatch_metadata_extraction oracle row.id
        (some (pyLower (pyBasename row.path))) ∧
    (IGNORED_FILES.all (fun k => (metaRouterLookup k).isNone)) = true ∧
    (pyBasename row.path = "LICENSE".toList →
      processRow oracle row =
        match oracle Family.text row.id with
        | .ok _ => statusSuccess Family.text
        | .error msg => statusError msg) := by
  have hmain : processRow oracle row =
      dispatch_metadata_extraction oracle row.id
        (some (pyLower (pyBasename row.path))) := by
    simp [processRow, hig, hlit]
  refine ⟨hmain, by decide, ?_⟩
  intro hname
  have hlow : pyLower (pyBasename row.path) = "license".toList := by
    rw [hname]; decide
  rw [hmain, hlow]
  rw [dispatch_eq_byKey oracle row.id "license".toList (by decide)]
  have hkey : metaRouterLookup (pyLower "license".toList) =
      some Family.text := by decide
  simp only [dispatchByKey, hkey]

/-- Witness for the amended C5: a file named `LICENSE` with no true
extension is dispatched to the text collector and logged as its
success status. -/
theorem literal_name_dispatch_witness :
    processRow okOracle ⟨2, "/y/LICENSE".toList, none, none⟩ =
      statusSuccess Family.text := by
  have h := literal_name_dispatch okOracle
    ⟨2, "/y/LICENSE".toList, none, none⟩ (by decide) (by decide)
  exact (h.2.2 (by decide)).trans rfl

/-- C10: a file whose non-empty `true_extension`, lowercased, is a member
of `IGNORED_FILES` is recorded as `SKIPPED (Ignored System File)` and no
collector is invoked (the outcome is the same for every collector
oracle), whatever its filename or declared extension. -/
theorem trueext_ignored_skips (oracle : PopulateOracle) (row : FileRow)
    (t : PyStr) (h1 : row.trueExt = some t) (h2 : t ≠ [])
    (h3 : IGNORED_FILES.contains (pyLower t) = true) :
    processRow oracle row = statusSkipIgnored ∧
    (∀ oracle' : PopulateOracle, processRow oracle' row = processRow oracle row) := by
  have hig : ignoredCheck (pyLower (pyBasename row.path)) row.trueExt = true := by
    unfold ignoredCheck
    rw [h1]
    have ht : optTruthy (some t) = true := by simp [optTruthy, h2]
    have h3' : pyLower t ∈ IGNORED_FILES := by simpa using h3
    simp [ht, h3']
  constructor
  · simp [processRow, hig]
  · intro oracle'
    simp [processRow, hig]

/-- Witness for C10: `notes.txt` (which would route to the text
collector by extension) is skipped because its sniffed true extension is
the ignore-listed `.DS_Store`. -/
theorem trueext_ignored_skips_witness :
    processRow okOracle ⟨5, "/d/notes.txt".toList,
      some ".DS_Store".toList, some "txt".toList⟩ = statusSkipIgnored := by
  exact (trueext_ignored_skips okOracle
    ⟨5, "/d/notes.txt".toList, some ".DS_Store".toList, some "txt".toList⟩
    ".DS_Store".toList rfl (by decide) (by decide)).1

/-! ## The PDF extractor (`pdf_metadata.py`)

The pypdf `PdfReader` is modelled by an oracle structure whose fields are
`Except`-valued where the corresponding library access can raise; the
extraction function is a direct translation of
`extract_pdf_metadata_from_path`, whose outer `try/except` is an
early-return carrying the meta record as mutated so far
(`Except PdfMeta` on the left). -/

/-- Remove every occurrence of a pattern from a string
(Python `s.replace(pat, "")`). -/
def removeAll (pat : PyStr) : PyStr → PyStr
  | [] => []
  | c :: rest =>
    if h : pat ≠ [] ∧ pat.isPrefixOf (c :: rest) then
      removeAll pat ((c :: rest).drop pat.length)
    else c :: removeAll pat rest
termination_by s => s.length
decreasing_by
  all_goals simp_wf
  all_goals
    have hlen : 1 ≤ pat.length := List.length_pos.mpr h.1
  all_goals omega

/-- `_parse_pdf_date` (`pdf_metadata.py` lines 18-44): strip the `D:`
prefix and quote marks, then slice `YYYYMMDDHHMMSS` into ISO-8601 with
`01`/`00` defaults for missing components. -/
def parse_pdf_date (date_str : Option PyStr) : Option PyStr :=
  match date_str with
  | none => none
  | some s =>
    if s = [] then none
    else
      let clean := removeAll ['\''] (removeAll "D:".toList s)
      if clean.length < 4 then none
      else
        let year := clean.take 4
        let month := if clean.length ≥ 6 then (clean.drop 4).take 2
                     else "01".toList
        let day := if clean.length ≥ 8 then (clean.drop 6).take 2
                   else "01".toList
        let hour := if clean.length ≥ 10 then (clean.drop 8).take 2
                    else "00".toList
        let minute := if clean.length ≥ 12 then (clean.drop 10).take 2
                      else "00".toList
        let second := if clean.length ≥ 14 then (clean.drop 12).take 2
                      else "00".toList
        some (year ++ "-".toList ++ month ++ "-".toList ++ day ++
          "T".toList ++ hour ++ ":".toList ++ minute ++ ":".toList ++ second)

/-- The document-information dictionary (`reader.metadata`) fields the
extractor reads. `keywordsStr` is `info.get("/Keywords")` when that value
is a string, `none` otherwise. -/
structure PdfInfo where
  title : Option PyStr
  author : Option PyStr
  subject : Option PyStr
  creator : Option PyStr
  producer : Option PyStr
  keywordsStr : Option PyStr
  creationDate : Option PyStr
  modDate : Option PyStr

/-- A pypdf `PdfReader` as seen by `extract_pdf_metadata_from_path`: each
field is the outcome of the corresponding library access, `Except`-valued
where the access can raise. `pageText i` bundles `reader.pages[i]` plus
`extract_text()` (its failure skips the page); `pageImage i` is the
XObject image heuristic on page `i`; `acroSig` is the outcome of the
`/AcroForm`-`/SigFlags` signature heuristic. -/
structure PdfReaderModel where
  is_encrypted : Bool
  decryptOk : Bool
  metadata : Except Unit (Option PdfInfo)
  pdf_header : Except Unit (Option PyStr)
  numPages : Except Unit Nat
  pageText : Nat → Except Unit PyStr
  pageImage : Nat → Except Unit Bool
  getFields : Except Unit Bool
  acroSig : Except Unit Bool

/-- The `meta` dict built by `extract_pdf_metadata_from_path`. -/
structure PdfMeta where
  page_count : Nat
  has_text : Nat
  has_images : Nat
  has_forms : Nat
  has_signatures : Nat
  is_encrypted : Nat
  title : Option PyStr
  author : Option PyStr
  subject : Option PyStr
  keywords : Option PyStr
  creator : Option PyStr
  producer : Option PyStr
  language : Option PyStr
  created_at : Option PyStr
  modified_at : Option PyStr
  pdf_version : Option PyStr
  pdf_conformance : Option PyStr
  Exerpt_hund : Option PyStr
  Exerpt_thou : Option PyStr
  Exerpt_full : Option PyStr
  is_blurred : Nat
  is_llavaocr_req : Nat
  mime_detected : PyStr
  deriving DecidableEq

/-- The initial `meta` dict (`pdf_metadata.py` lines 63-94). -/
def defaultPdfMeta : PdfMeta :=
  { page_count := 0, has_text := 0, has_images := 0, has_forms := 0,
    has_signatures := 0, is_encrypted := 0,
    title := none, author := none, subject := none, keywords := none,
    creator := none, producer := none, language := none,
    created_at := none, modified_at := none,
    pdf_version := none, pdf_conformance := none,
    Exerpt_hund := none, Exerpt_thou := none, Exerpt_full := none,
    is_blurred := 0, is_llavaocr_req := 0,
    mime_detected := "application/pdf".toList }

/-- The per-page scan loop (lines 146-171): accumulate extracted page
texts, the has-images flag (checked only while still false) and the
has-text flag; a raising page is skipped, a raising image check keeps the
page's already-recorded text. -/
def pdfPagesLoop (rd : PdfReaderModel) (scan_limit : Nat) :
    List PyStr × Bool × Bool :=
  (List.range scan_limit).foldl
    (fun acc i =>
      match rd.pageText i with
      | .error _ => acc
      | .ok t =>
        let fullText := acc.1
        let hasImages := acc.2.1
        let hasText := acc.2.2
        let fullText' := if pyStrip t ≠ [] then fullText ++ [t] else fullText
        let hasText' := if pyStrip t ≠ [] then true else hasText
        let hasImages' :=
          if hasImages then true
          else match rd.pageImage i with
            | .ok b => b
            | .error _ => hasImages
        (fullText', hasImages', hasText'))
    ([], false, false)

/-- `"\n".join(full_text)`. -/
def joinNL (l : List PyStr) : PyStr := List.intercalate ['\n'] l

/-- `header.split("-")[-1]`. -/
def afterLastDash (h : PyStr) : PyStr :=
  (h.reverse.takeWhile (fun c => c ≠ '-')).reverse

/-- Encryption step (lines 103-104): mark `is_encrypted` on the default
record. -/
def pdfStepEnc (enc : Bool) : PdfMeta :=
  if enc then { defaultPdfMeta with is_encrypted := 1 } else defaultPdfMeta

/-- Document-information step (lines 113-127). -/
def pdfStepInfo (m : PdfMeta) (info : Option PdfInfo) : PdfMeta :=
  match info with
  | none => m
  | some i =>
    { m with title := i.title, author := i.author,
             subject := i.subject, creator := i.creator,
             producer := i.producer, keywords := i.keywordsStr,
             created_at := parse_pdf_date i.creationDate,
             modified_at := parse_pdf_date i.modDate }

/-- PDF-version step (lines 129-136, inner `try/except pass`). -/
def pdfStepVersion (m : PdfMeta) (hdr : Except Unit (Option PyStr)) :
    PdfMeta :=
  match hdr with
  | .error _ => m
  | .ok none => m
  | .ok (some h) =>
    if h ≠ [] && h.contains '-' then
      { m with pdf_version := some (pyStrip (afterLastDash h)) }
    else m

/-- Page-count step (lines 138-143, inner try: on failure `num_pages = 0`
and `page_count` is left untouched). -/
def pdfStepPages (m : PdfMeta) (np : Except Unit Nat) : Nat × PdfMeta :=
  match np with
  | .ok n => (n, { m with page_count := n })
  | .error _ => (0, m)

/-- The `has_text`/`has_images` assignment after the page loop
(lines 173-174). -/
def pdfStepTextImages (m : PdfMeta) (hasText hasImages : Bool) : PdfMeta :=
  { m with has_text := if hasText then 1 else 0,
           has_images := if hasImages then 1 else 0 }

/-- AcroForm step (lines 177-178). -/
def pdfStepForms (m : PdfMeta) (gf : Bool) : PdfMeta :=
  if gf then { m with has_forms := 1 } else m

/-- Signature-flags step (lines 182-187). -/
def pdfStepSig (m : PdfMeta) (sig : Bool) : PdfMeta :=
  if sig then { m with has_signatures := 1 } else m

/-- The body of the extractor's outer `try` after the reader opened
(lines 103-187): `.error m` is the outer `except` path returning the meta
record as mutated so far (including the early `return meta` when
decrypting with the empty password fails); `.ok (m, texts)` reaches the
excerpt-filling step with the accumulated page texts. -/
def pdfCore (rd : PdfReaderModel) : Except PdfMeta (PdfMeta × List PyStr) :=
  -- 1. encryption (with early return when empty-password decrypt fails)
  let m1 := pdfStepEnc rd.is_encrypted
  if rd.is_encrypted && !rd.decryptOk then .error m1
  else
    -- 2. general information
    match rd.metadata with
    | .error _ => .error m1
    | .ok info =>
      let m3 := pdfStepVersion (pdfStepInfo m1 info) rd.pdf_header
      -- 3. structure and pages
      let np := pdfStepPages m3 rd.numPages
      let res := pdfPagesLoop rd (min np.1 20)
      let m5 := pdfStepTextImages np.2 res.2.2 res.2.1
      -- forms (AcroForm)
      match rd.getFields with
      | .error _ => .error m5
      | .ok gf =>
        let m6 := pdfStepForms m5 gf
        -- signatures heuristic
        match rd.acroSig with
        | .error _ => .error m6
        | .ok sig => .ok (pdfStepSig m6 sig, res.1)

/-- The excerpt-filling and OCR-request steps (lines 189-198). -/
def pdfFinish (m : PdfMeta) (texts : List PyStr) : PdfMeta :=
  let all_text_content := joinNL texts
  let m' :=
    if all_text_content ≠ [] then
      { m with Exerpt_full := some all_text_content,
               Exerpt_thou := some (all_text_content.take 1000),
               Exerpt_hund := some (all_text_content.take 100) }
    else m
  if m'.has_text = 0 ∧ m'.has_images = 1 then
    { m' with is_llavaocr_req := 1 }
  else m'

/-- `extract_pdf_metadata_from_path` (lines 59-203): the default record
when pypdf is missing or `PdfReader(path)` raises; otherwise the core
body with its outer exception handler returning the partial record. -/
def extract_pdf_metadata_from_path (havePypdf : Bool)
    (reader : Except Unit PdfReaderModel) : PdfMeta :=
  if !havePypdf then defaultPdfMeta
  else
    match reader with
    | .error _ => defaultPdfMeta
    | .ok rd =>
      match pdfCore rd with
      | .error m => m
      | .ok p => pdfFinish p.1 p.2

/-! ## The text extractor (`text_metadata.py`) -/

/-- Python `str.splitlines()` on the newline conventions `\n`, `\r\n`,
`\r` (the ones this corpus produces): accumulator-based splitter. -/
def splitlinesAux : PyStr → PyStr → List PyStr
  | [], cur => if cur = [] then [] else [cur.reverse]
  | '\n' :: rest, cur => cur.reverse :: splitlinesAux rest []
  | '\x0d' :: '\n' :: rest, cur => cur.reverse :: splitlinesAux rest []
  | '\x0d' :: rest, cur => cur.reverse :: splitlinesAux rest []
  | c :: rest, cur => splitlinesAux rest (c :: cur)

/-- `content.splitlines()`. -/
def pySplitlines (s : PyStr) : List PyStr := splitlinesAux s []

/-- `content.split()` with no argument: split on whitespace runs,
dropping empty pieces. -/
def pyWords (s : PyStr) : List PyStr :=
  (s.splitOnP isPyWS).filter (fun w => w ≠ [])

/-- The filesystem as seen by `extract_text_metadata_from_path`:
existence, the `_detect_encoding` outcome and the `_read_file_content`
outcome (which is `""` when every decoding attempt failed). -/
structure TextFileModel where
  pathExists : Bool
  detectedEncoding : PyStr
  content : PyStr

/-- The `meta` dict of `extract_text_metadata_from_path`. -/
structure TextMeta where
  line_count : Nat
  word_count : Nat
  char_count : Nat
  encoding : PyStr
  mime_detected : PyStr
  Exerpt_hund : Option PyStr
  Exerpt_thou : Option PyStr
  Exerpt_full : Option PyStr
  deriving DecidableEq

/-- The initial `meta` dict (`text_metadata.py` lines 52-61). -/
def defaultTextMeta : TextMeta :=
  { line_count := 0, word_count := 0, char_count := 0,
    encoding := "utf-8".toList, mime_detected := "text/plain".toList,
    Exerpt_hund := none, Exerpt_thou := none, Exerpt_full := none }

/-- The extension-based MIME refinement (`text_metadata.py` lines 88-100). -/
def textMimeRefine (ext : PyStr) (dflt : PyStr) : PyStr :=
  if ext = ".json".toList then "application/json".toList
  else if ext = ".py".toList then "text/x-python".toList
  else if ext = ".md".toList then "text/markdown".toList
  else if ext = ".csv".toList then "text/csv".toList
  else if ext = ".html".toList ∨ ext = ".htm".toList then "text/html".toList
  else if ext = ".xml".toList then "text/xml".toList
  else dflt

/-- `extract_text_metadata_from_path` (lines 48-105): defaults when the
path does not exist; otherwise encoding, counts, the three excerpts from
the same content string, and the extension-based MIME refinement. -/
def extract_text_metadata_from_path (tf : TextFileModel) (path : PyStr) :
    TextMeta :=
  let meta := defaultTextMeta
  if !tf.pathExists then meta
  else
    let meta := { meta with encoding := tf.detectedEncoding }
    let content := tf.content
    if content ≠ [] then
      let meta := { meta with
        char_count := content.length,
        line_count := (pySplitlines content).length,
        word_count := (pyWords content).length,
        Exerpt_full := some content,
        Exerpt_thou := some (content.take 1000),
        Exerpt_hund := some (content.take 100) }
      let ext := pyLower (pySplitextExt path)
      { meta with mime_detected := textMimeRefine ext meta.mime_detected }
    else meta

/-! ## The archive extractor (`archive_metadata.py`) -/

/-- One `zipfile` entry as read by `_analyze_zip`. -/
structure ZipEntryModel where
  is_dir : Bool
  file_size : Nat
  flagEncrypted : Bool
  filename : PyStr

/-- A zip archive as read by `_analyze_zip`: the decoded comment (empty
when absent) and the entry list. -/
structure ZipArchiveModel where
  comment : PyStr
  entries : List ZipEntryModel

/-- One `tarfile` member as read by `_analyze_tar`. -/
structure TarMemberModel where
  isDir : Bool
  isFile : Bool
  size : Nat
  name : PyStr

/-- The stats dict shared by `_analyze_zip` and `_analyze_tar`. -/
structure InternalStats where
  file_count : Nat
  folder_count : Nat
  total_uncompressed_size : Nat
  is_encrypted : Nat
  comment : Option PyStr
  file_list : List PyStr

/-- The zeroed stats dict both analyzers start from. -/
def zeroStats : InternalStats :=
  { file_count := 0, folder_count := 0, total_uncompressed_size := 0,
    is_encrypted := 0, comment := none, file_list := [] }

/-- `_analyze_zip` (lines 13-52): `none` models any exception opening the
archive, which leaves the zeroed stats. -/
def analyze_zip (z : Option ZipArchiveModel) : InternalStats :=
  match z with
  | none => zeroStats
  | some za =>
    let st0 := { zeroStats with
      comment := if za.comment ≠ [] then some za.comment else none }
    za.entries.foldl
      (fun st e =>
        let st :=
          if e.is_dir then { st with folder_count := st.folder_count + 1 }
          else { st with file_count := st.file_count + 1,
                         total_uncompressed_size :=
                           st.total_uncompressed_size + e.file_size }
        let st := if e.flagEncrypted then { st with is_encrypted := 1 }
                  else st
        { st with file_list := st.file_list ++ [e.filename] })
      st0

/-- `_analyze_tar` (lines 54-82): `none` models any exception opening the
archive, which leaves the zeroed stats. -/
def analyze_tar (t : Option (List TarMemberModel)) : InternalStats :=
  match t with
  | none => zeroStats
  | some members =>
    members.foldl
      (fun st m =>
        let st :=
          if m.isDir then { st with folder_count := st.folder_count + 1 }
          else if m.isFile then
            { st with file_count := st.file_count + 1,
                      total_uncompressed_size :=
                        st.total_uncompressed_size + m.size }
          else st
        { st with file_list := st.file_list ++ [m.name] })
      zeroStats

/-- The filesystem/archive world of `extract_archive_metadata_from_path`. -/
structure ArchiveWorld where
  pathExists : Bool
  sizeOnDisk : Nat
  zip : Option ZipArchiveModel
  tar : Option (List TarMemberModel)

/-- The `meta` dict of `extract_archive_metadata_from_path`. The
`compression_ratio` float is modelled as the unrounded
numerator/denominator pair (`none` for the 0.0 default) since no claim
depends on the 2-decimal rounding. -/
structure ArchiveMeta where
  file_count : Nat
  folder_count : Nat
  total_uncompressed_size : Nat
  compression_ratio : Option (Nat × Nat)
  is_encrypted : Nat
  mime_detected : PyStr
  Exerpt_hund : Option PyStr
  Exerpt_thou : Option PyStr
  Exerpt_full : Option PyStr
  deriving DecidableEq

/-- The initial archive `meta` dict (lines 92-102). -/
def defaultArchiveMeta : ArchiveMeta :=
  { file_count := 0, folder_count := 0, total_uncompressed_size := 0,
    compression_ratio := none, is_encrypted := 0,
    mime_detected := "application/octet-stream".toList,
    Exerpt_hund := none, Exerpt_thou := none, Exerpt_full := none }

/-- Does `pat` occur as a contiguous substring of `s` (Python `in`)? -/
def containsSub (pat s : PyStr) : Bool :=
  (List.range (s.length + 1)).any (fun i => pat.isPrefixOf (s.drop i))

/-- `extract_archive_metadata_from_path` (lines 88-152). -/
def extract_archive_metadata_from_path (w : ArchiveWorld) (path : PyStr) :
    ArchiveMeta :=
  let meta := defaultArchiveMeta
  if !w.pathExists then meta
  else
    let ext := pyLower (pySplitextExt path)
    let file_size_on_disk := w.sizeOnDisk
    let engine : Option (PyStr × InternalStats) :=
      if ext = ".zip".toList then
        some ("application/zip".toList, analyze_zip w.zip)
      else if ext = ".tar".toList ∨ ext = ".gz".toList ∨
          ext = ".tgz".toList ∨ ext = ".bz2".toList then
        let mime :=
          if ".tar".toList.isSuffixOf path ∨ containsSub ".tar.".toList path ∨
              ".tgz".toList.isSuffixOf path then
            "application/x-tar".toList
          else "application/gzip".toList
        some (mime, analyze_tar w.tar)
      else none
    match engine with
    | none => meta
    | some (mime, internal_stats) =>
      let meta := { meta with
        mime_detected := mime,
        file_count := internal_stats.file_count,
        folder_count := internal_stats.folder_count,
        total_uncompressed_size := internal_stats.total_uncompressed_size,
        is_encrypted := internal_stats.is_encrypted }
      let meta :=
        if file_size_on_disk > 0 then
          { meta with compression_ratio :=
                        some (internal_stats.total_uncompressed_size,
                          file_size_on_disk) }
        else meta
      let full_list_str0 := joinNL internal_stats.file_list
      let full_list_str :=
        match internal_stats.comment with
        | some c =>
          "COMMENT: ".toList ++ c ++ "\n\nFILES:\n".toList ++ full_list_str0
        | none => full_list_str0
      if full_list_str ≠ [] then
        { meta with Exerpt_full := some full_list_str,
                    Exerpt_thou := some (full_list_str.take 1000),
                    Exerpt_hund := some (full_list_str.take 100) }
      else meta

/-! ## The Index Store and the `populate` wrappers -/

/-- One row of the `file` table as touched by the `populate` wrappers. -/
structure FileRec where
  path : PyStr
  mime_detected : Option PyStr
  updated_at : Option Nat
  deriving DecidableEq

/-- The columns of `file_pdf_metadata` other than the `file_id` key, in
INSERT order (`pdf_metadata.py` lines 236-266). -/
structure PdfRow where
  page_count : Nat
  has_text : Nat
  has_images : Nat
  has_forms : Nat
  has_signatures : Nat
  is_encrypted : Nat
  title : Option PyStr
  author : Option PyStr
  subject : Option PyStr
  keywords : Option PyStr
  creator : Option PyStr
  producer : Option PyStr
  language : Option PyStr
  created_at : Option PyStr
  modified_at : Option PyStr
  pdf_version : Option PyStr
  pdf_conformance : Option PyStr
  is_blurred : Nat
  is_llavaocr_req : Nat
  Exerpt_hund : Option PyStr
  Exerpt_thou : Option PyStr
  Exerpt_full : Option PyStr
  deriving DecidableEq

/-- The tuple bound into the `file_pdf_metadata` INSERT. -/
def pdfRowOf (m : PdfMeta) : PdfRow :=
  { page_count := m.page_count, has_text := m.has_text,
    has_images := m.has_images, has_forms := m.has_forms,
    has_signatures := m.has_signatures, is_encrypted := m.is_encrypted,
    title := m.title, author := m.author, subject := m.subject,
    keywords := m.keywords, creator := m.creator, producer := m.producer,
    language := m.language, created_at := m.created_at,
    modified_at := m.modified_at, pdf_version := m.pdf_version,
    pdf_conformance := m.pdf_conformance, is_blurred := m.is_blurred,
    is_llavaocr_req := m.is_llavaocr_req, Exerpt_hund := m.Exerpt_hund,
    Exerpt_thou := m.Exerpt_thou, Exerpt_full := m.Exerpt_full }

/-- The columns of `file_text_metadata` other than the `file_id` key, in
INSERT order (`text_metadata.py` lines 134-148). -/
structure TextRow where
  line_count : Nat
  word_count : Nat
  char_count : Nat
  encoding : PyStr
  Exerpt_hund : Option PyStr
  Exerpt_thou : Option PyStr
  Exerpt_full : Option PyStr
  deriving DecidableEq

/-- The tuple bound into the `file_text_metadata` INSERT. -/
def textRowOf (m : TextMeta) : TextRow :=
  { line_count := m.line_count, word_count := m.word_count,
    char_count := m.char_count, encoding := m.encoding,
    Exerpt_hund := m.Exerpt_hund, Exerpt_thou := m.Exerpt_thou,
    Exerpt_full := m.Exerpt_full }

/-- The slice of the Index Store the two `populate` wrappers touch; each
table is an association list keyed by the `file_id` / `id` primary key. -/
structure DBState where
  file : List (Nat × FileRec)
  file_pdf_metadata : List (Nat × PdfRow)
  file_text_metadata : List (Nat × TextRow)
  deriving DecidableEq

/-- `INSERT OR REPLACE` into a table whose primary key is the `Nat`
component: drop any row with the same key, insert the new row. -/
def insertOrReplace {α : Type} (t : List (Nat × α)) (k : Nat) (v : α) :
    List (Nat × α) :=
  (k, v) :: t.filter (fun p => p.1 ≠ k)

/-- `UPDATE file SET mime_detected = ?, updated_at = datetime('now')
WHERE id = ?`. -/
def updateFileMime (t : List (Nat × FileRec)) (k : Nat) (mime : PyStr)
    (now : Nat) : List (Nat × FileRec) :=
  t.map (fun p =>
    if p.1 = k then
      (p.1, { p.2 with mime_detected := some mime, updated_at := some now })
    else p)

/-- `populate_pdf_metadata` (`pdf_metadata.py` lines 210-306): look up
the path (raising when the row is absent), extract, replace the
`file_pdf_metadata` row wholesale, update `file.mime_detected`, commit. -/
def populate_pdf_metadata (havePypdf : Bool)
    (world : PyStr → Except Unit PdfReaderModel) (now : Nat)
    (db : DBState) (file_id : Nat) : Except PyStr DBState :=
  match List.lookup file_id db.file with
  | none => .error ("Aucun fichier avec id=".toList ++ (toString file_id).toList)
  | some rec =>
    let meta := extract_pdf_metadata_from_path havePypdf (world rec.path)
    .ok { db with
      file_pdf_metadata :=
        insertOrReplace db.file_pdf_metadata file_id (pdfRowOf meta),
      file := updateFileMime db.file file_id meta.mime_detected now }

/-- `populate_text_metadata` (`text_metadata.py` lines 112-172): same
shape over the text extractor and `file_text_metadata`. -/
def populate_text_metadata (world : PyStr → TextFileModel) (now : Nat)
    (db : DBState) (file_id : Nat) : Except PyStr DBState :=
  match List.lookup file_id db.file with
  | none => .error ("Aucun fichier avec id=".toList ++ (toString file_id).toList)
  | some rec =>
    let meta := extract_text_metadata_from_path (world rec.path) rec.path
    .ok { db with
      file_text_metadata :=
        insertOrReplace db.file_text_metadata file_id (textRowOf meta),
      file := updateFileMime db.file file_id meta.mime_detected now }

/-! ## The excerpt-prefix law -/

/-- The three excerpt fields are either all unset or the
100/1000/unbounded truncations of one underlying string. -/
def ExcerptShape (hund thou full : Option PyStr) : Prop :=
  (hund = none ∧ thou = none ∧ full = none) ∨
  ∃ s : PyStr, full = some s ∧ thou = some (s.take 1000) ∧
    hund = some (s.take 100)

@[simp] lemma pdfStepEnc_hund (b : Bool) :
    (pdfStepEnc b).Exerpt_hund = none := by cases b <;> rfl
@[simp] lemma pdfStepEnc_thou (b : Bool) :
    (pdfStepEnc b).Exerpt_thou = none := by cases b <;> rfl
@[simp] lemma pdfStepEnc_full (b : Bool) :
    (pdfStepEnc b).Exerpt_full = none := by cases b <;> rfl

@[simp] lemma pdfStepInfo_hund (m : PdfMeta) (i : Option PdfInfo) :
    (pdfStepInfo m i).Exerpt_hund = m.Exerpt_hund := by cases i <;> rfl
@[simp] lemma pdfStepInfo_thou (m : PdfMeta) (i : Option PdfInfo) :
    (pdfStepInfo m i).Exerpt_thou = m.Exerpt_thou := by cases i <;> rfl
@[simp] lemma pdfStepInfo_full (m : PdfMeta) (i : Option PdfInfo) :
    (pdfStepInfo m i).Exerpt_full = m.Exerpt_full := by cases i <;> rfl

@[simp] lemma pdfStepVersion_hund (m : PdfMeta)
    (hdr : Except Unit (Option PyStr)) :
    (pdfStepVersion m hdr).Exerpt_hund = m.Exerpt_hund := by
  unfold pdfStepVersion; repeat' split
  all_goals rfl
@[simp] lemma pdfStepVersion_thou (m : PdfMeta)
    (hdr : Except Unit (Option PyStr)) :
    (pdfStepVersion m hdr).Exerpt_thou = m.Exerpt_thou := by
  unfold pdfStepVersion; repeat' split
  all_goals rfl
@[simp] lemma pdfStepVersion_full (m : PdfMeta)
    (hdr : Except Unit (Option PyStr)) :
    (pdfStepVersion m hdr).Exerpt_full = m.Exerpt_full := by
  unfold pdfStepVersion; repeat' split
  all_goals rfl

@[simp] lemma pdfStepPages_hund (m : PdfMeta) (np : Except Unit Nat) :
    (pdfStepPages m np).2.Exerpt_hund = m.Exerpt_hund := by
  cases np <;> rfl
@[simp] lemma pdfStepPages_thou (m : PdfMeta) (np : Except Unit Nat) :
    (pdfStepPages m np).2.Exerpt_thou = m.Exerpt_thou := by
  cases np <;> rfl
@[simp] lemma pdfStepPages_full (m : PdfMeta) (np : Except Unit Nat) :
    (pdfStepPages m np).2.Exerpt_full = m.Exerpt_full := by
  cases np <;> rfl

@[simp] lemma pdfStepTextImages_hund (m : PdfMeta) (a b : Bool) :
    (pdfStepTextImages m a b).Exerpt_hund = m.Exerpt_hund := rfl
@[simp] lemma pdfStepTextImages_thou (m : PdfMeta) (a b : Bool) :
    (pdfStepTextImages m a b).Exerpt_thou = m.Exerpt_thou := rfl
@[simp] lemma pdfStepTextImages_full (m : PdfMeta) (a b : Bool) :
    (pdfStepTextImages m a b).Exerpt_full = m.Exerpt_full := rfl

@[simp] lemma pdfStepForms_hund (m : PdfMeta) (b : Bool) :
    (pdfStepForms m b).Exerpt_hund = m.Exerpt_hund := by cases b <;> rfl
@[simp] lemma pdfStepForms_thou (m : PdfMeta) (b : Bool) :
    (pdfStepForms m b).Exerpt_thou = m.Exerpt_thou := by cases b <;> rfl
@[simp] lemma pdfStepForms_full (m : PdfMeta) (b : Bool) :
    (pdfStepForms m b).Exerpt_full = m.Exerpt_full := by cases b <;> rfl

@[simp] lemma pdfStepSig_hund (m : PdfMeta) (b : Bool) :
    (pdfStepSig m b).Exerpt_hund = m.Exerpt_hund := by cases b <;> rfl
@[simp] lemma pdfStepSig_thou (m : PdfMeta) (b : Bool) :
    (pdfStepSig m b).Exerpt_thou = m.Exerpt_thou := by cases b <;> rfl
@[simp] lemma pdfStepSig_full (m : PdfMeta) (b : Bool) :
    (pdfStepSig m b).Exerpt_full = m.Exerpt_full := by cases b <;> rfl

lemma pdfCore_error_excerpts (rd : PdfReaderModel) (m : PdfMeta)
    (h : pdfCore rd = .error m) :
    m.Exerpt_hund = none ∧ m.Exerpt_thou = none ∧ m.Exerpt_full = none := by
  unfold pdfCore at h
  dsimp only at h
  repeat' split at h
  all_goals (try exact Except.noConfusion h)
  all_goals (injection h with h2; subst h2; refine ⟨?_, ?_, ?_⟩ <;> simp)

lemma pdfCore_ok_excerpts (rd : PdfReaderModel) (p : PdfMeta × List PyStr)
    (h : pdfCore rd = .ok p) :
    p.1.Exerpt_hund = none ∧ p.1.Exerpt_thou = none ∧
      p.1.Exerpt_full = none := by
  unfold pdfCore at h
  dsimp only at h
  repeat' split at h
  all_goals (try exact Except.noConfusion h)
  all_goals (injection h with h2; subst h2; refine ⟨?_, ?_, ?_⟩ <;> simp)

lemma pdfFinish_excerpts (m : PdfMeta) (texts : List PyStr)
    (hm : m.Exerpt_hund = none ∧ m.Exerpt_thou = none ∧
      m.Exerpt_full = none) :
    ExcerptShape (pdfFinish m texts).Exerpt_hund
      (pdfFinish m texts).Exerpt_thou (pdfFinish m texts).Exerpt_full := by
  unfold pdfFinish
  dsimp only
  repeat' split
  all_goals first
    | exact Or.inr ⟨joinNL texts, rfl, rfl, rfl⟩
    | exact Or.inl ⟨hm.1, hm.2.1, hm.2.2⟩

lemma extract_pdf_excerpts (havePypdf : Bool)
    (reader : Except Unit PdfReaderModel) :
    ExcerptShape (extract_pdf_metadata_from_path havePypdf reader).Exerpt_hund
      (extract_pdf_metadata_from_path havePypdf reader).Exerpt_thou
      (extract_pdf_metadata_from_path havePypdf reader).Exerpt_full := by
  unfold extract_pdf_metadata_from_path
  split
  · exact Or.inl ⟨rfl, rfl, rfl⟩
  · split
    · exact Or.inl ⟨rfl, rfl, rfl⟩
    · rename_i rd
      cases hc : pdfCore rd with
      | error m =>
        simp only [hc]
        exact Or.inl (pdfCore_error_excerpts rd m hc)
      | ok p =>
        simp only [hc]
        exact pdfFinish_excerpts p.1 p.2 (pdfCore_ok_excerpts rd p hc)

lemma extract_text_excerpts (tf : TextFileModel) (path : PyStr) :
    ExcerptShape (extract_text_metadata_from_path tf path).Exerpt_hund
      (extract_text_metadata_from_path tf path).Exerpt_thou
      (extract_text_metadata_from_path tf path).Exerpt_full := by
  unfold extract_text_metadata_from_path
  dsimp only
  repeat' split
  all_goals first
    | exact Or.inr ⟨tf.content, rfl, rfl, rfl⟩
    | exact Or.inl ⟨rfl, rfl, rfl⟩

lemma extract_archive_excerpts (w : ArchiveWorld) (path : PyStr) :
    ExcerptShape (extract_archive_metadata_from_path w path).Exerpt_hund
      (extract_archive_metadata_from_path w path).Exerpt_thou
      (extract_archive_metadata_from_path w path).Exerpt_full := by
  unfold extract_archive_metadata_from_path
  dsimp only
  repeat' split
  all_goals first
    | (rename_i hne; exact Or.inr ⟨_, rfl, rfl, rfl⟩)
    | exact Or.inl ⟨rfl, rfl, rfl⟩

lemma excerptShape_prefix (hund thou full : Option PyStr) (a b c : PyStr)
    (hs : ExcerptShape hund thou full) (ha : hund = some a)
    (hb : thou = some b) (hc : full = some c) : a <+: b ∧ b <+: c := by
  rcases hs with ⟨h1, _, _⟩ | ⟨s, h1, h2, h3⟩
  · rw [h1] at ha; exact Option.noConfusion ha
  · rw [h1] at hc; injection hc with hc
    rw [h2] at hb; injection hb with hb
    rw [h3] at ha; injection ha with ha
    subst ha; subst hb; subst hc
    constructor
    · exact List.take_isPrefix_take.mpr (Or.inl (by omega))
    · exact List.take_prefix 1000 s

/-- C7: for the PDF, text and archive extractors (the families that fill
the excerpt fields as truncations of one string; the remaining families
either set all three to one identical string or none at all), whenever
`Exerpt_hund`, `Exerpt_thou` and `Exerpt_full` are all non-null,
`Exerpt_hund` is a prefix of `Exerpt_thou` and `Exerpt_thou` a prefix of
`Exerpt_full`. -/
theorem excerpt_prefix_law :
    (∀ (hp : Bool) (reader : Except Unit PdfReaderModel) (a b c : PyStr),
      (extract_pdf_metadata_from_path hp reader).Exerpt_hund = some a →
      (extract_pdf_metadata_from_path hp reader).Exerpt_thou = some b →
      (extract_pdf_metadata_from_path hp reader).Exerpt_full = some c →
      a <+: b ∧ b <+: c) ∧
    (∀ (tf : TextFileModel) (path : PyStr) (a b c : PyStr),
      (extract_text_metadata_from_path tf path).Exerpt_hund = some a →
      (extract_text_metadata_from_path tf path).Exerpt_thou = some b →
      (extract_text_metadata_from_path tf path).Exerpt_full = some c →
      a <+: b ∧ b <+: c) ∧
    (∀ (w : ArchiveWorld) (path : PyStr) (a b c : PyStr),
      (extract_archive_metadata_from_path w path).Exerpt_hund = some a →
      (extract_archive_metadata_from_path w path).Exerpt_thou = some b →
      (extract_archive_metadata_from_path w path).Exerpt_full = some c →
      a <+: b ∧ b <+: c) := by
  refine ⟨?_, ?_, ?_⟩
  · intro hp reader a b c ha hb hc
    exact excerptShape_prefix _ _ _ a b c
      (extract_pdf_excerpts hp reader) ha hb hc
  · intro tf path a b c ha hb hc
    exact excerptShape_prefix _ _ _ a b c
      (extract_text_excerpts tf path) ha hb hc
  · intro w path a b c ha hb hc
    exact excerptShape_prefix _ _ _ a b c
      (extract_archive_excerpts w path) ha hb hc

/-- Witness for C7: a text file containing `hello` yields the three
excerpts, and the prefix chain holds for them. -/
theorem excerpt_prefix_law_witness :
    (extract_text_metadata_from_path
      ⟨true, "utf-8".toList, "hello".toList⟩ "/a/b.txt".toList).Exerpt_hund =
        some "hello".toList ∧
    "hello".toList <+: "hello".toList := by
  refine ⟨by decide, ?_⟩
  have h := excerpt_prefix_law.2.1 ⟨true, "utf-8".toList, "hello".toList⟩
    "/a/b.txt".toList "hello".toList "hello".toList "hello".toList
    (by decide) (by decide) (by decide)
  exact h.1

/-! ## Replace semantics of the populate wrappers -/

lemma filter_ne_key_idem {α : Type} (t : List (Nat × α)) (k : Nat) :
    (t.filter (fun p => p.1 ≠ k)).filter (fun p => p.1 ≠ k) =
      t.filter (fun p => p.1 ≠ k) := by
  induction t with
  | nil => rfl
  | cons a l ih =>
    by_cases hk : a.1 = k
    · simp [List.filter_cons, hk, ih]
    · simp [List.filter_cons, hk, ih]

lemma filter_eq_of_filter_ne {α : Type} (t : List (Nat × α)) (k : Nat) :
    (t.filter (fun p => p.1 ≠ k)).filter (fun p => p.1 == k) = [] := by
  induction t with
  | nil => rfl
  | cons a l ih =>
    by_cases hk : a.1 = k
    · simp [List.filter_cons, hk, ih]
    · simp [List.filter_cons, hk, ih]

lemma insertOrReplace_idem {α : Type} (t : List (Nat × α)) (k : Nat)
    (v : α) :
    insertOrReplace (insertOrReplace t k v) k v = insertOrReplace t k v := by
  unfold insertOrReplace
  simp only [List.filter_cons]
  have hk : (decide (k ≠ k)) = false := by simp
  simp [hk, filter_ne_key_idem]

lemma insertOrReplace_count {α : Type} (t : List (Nat × α)) (k : Nat)
    (v : α) :
    ((insertOrReplace t k v).filter (fun p => p.1 == k)).length = 1 := by
  unfold insertOrReplace
  simp [List.filter_cons, filter_eq_of_filter_ne]

lemma lookup_updateFileMime (t : List (Nat × FileRec)) (k : Nat)
    (mime : PyStr) (now : Nat) :
    List.lookup k (updateFileMime t k mime now) =
      (List.lookup k t).map
        (fun r => { r with
                    mime_detected := some mime,
                    updated_at := some now }) := by
  induction t with
  | nil => rfl
  | cons a l ih =>
    obtain ⟨ak, ar⟩ := a
    by_cases hk : ak = k
    · subst hk
      unfold updateFileMime
      rw [List.map_cons, if_pos (show ((ak, ar) : Nat × FileRec).1 = ak from rfl)]
      simp [List.lookup]
    · simp only [updateFileMime, List.map_cons] at ih ⊢
      rw [if_neg hk]
      have hbeq : (k == ak) = false := by simp [Ne.symm hk]
      simp [List.lookup, hbeq]
      exact ih

/-- C2: over an unchanged file (a fixed reader/filesystem world),
calling `populate` twice in succession for the same `file_id` succeeds,
leaves the variant table identical to what it was after the first call
(in particular the row is byte-identical), and the table holds exactly
one row for that `file_id` — replace semantics, no accumulation. Stated
for both cited wrappers, `populate_pdf_metadata` and
`populate_text_metadata`. -/
theorem populate_replace_idempotent :
    (∀ (hp : Bool) (world : PyStr → Except Unit PdfReaderModel)
        (now now' : Nat) (db db₁ : DBState) (fid : Nat),
      populate_pdf_metadata hp world now db fid = .ok db₁ →
      ∃ db₂, populate_pdf_metadata hp world now' db₁ fid = .ok db₂ ∧
        db₂.file_pdf_metadata = db₁.file_pdf_metadata ∧
        (db₁.file_pdf_metadata.filter (fun p => p.1 == fid)).length = 1) ∧
    (∀ (world : PyStr → TextFileModel) (now now' : Nat)
        (db db₁ : DBState) (fid : Nat),
      populate_text_metadata world now db fid = .ok db₁ →
      ∃ db₂, populate_text_metadata world now' db₁ fid = .ok db₂ ∧
        db₂.file_text_metadata = db₁.file_text_metadata ∧
        (db₁.file_text_metadata.filter (fun p => p.1 == fid)).length = 1) := by
  constructor
  · intro hp world now now' db db₁ fid h
    cases hrec : List.lookup fid db.file with
    | none => simp [populate_pdf_metadata, hrec] at h
    | some rec =>
      simp only [populate_pdf_metadata, hrec] at h
      injection h with h2
      subst h2
      have hrec1 : List.lookup fid
          (updateFileMime db.file fid
            (extract_pdf_metadata_from_path hp (world rec.path)).mime_detected
            now) =
          some { rec with
                 mime_detected := some (extract_pdf_metadata_from_path hp
                   (world rec.path)).mime_detected,
                 updated_at := some now } := by
        rw [lookup_updateFileMime, hrec]
        rfl
      refine ⟨{ db with
          file_pdf_metadata :=
            insertOrReplace
              (insertOrReplace db.file_pdf_metadata fid
                (pdfRowOf (extract_pdf_metadata_from_path hp
                  (world rec.path))))
              fid
              (pdfRowOf (extract_pdf_metadata_from_path hp (world rec.path))),
          file :=
            updateFileMime
              (updateFileMime db.file fid
                (extract_pdf_metadata_from_path hp
                  (world rec.path)).mime_detected now)
              fid
              (extract_pdf_metadata_from_path hp
                (world rec.path)).mime_detected
              now' }, ?_, ?_, ?_⟩
      · simp only [populate_pdf_metadata]
        rw [hrec1]
      · exact insertOrReplace_idem _ _ _
      · exact insertOrReplace_count _ _ _
  · intro world now now' db db₁ fid h
    cases hrec : List.lookup fid db.file with
    | none => simp [populate_text_metadata, hrec] at h
    | some rec =>
      simp only [populate_text_metadata, hrec] at h
      injection h with h2
      subst h2
      have hrec1 : List.lookup fid
          (updateFileMime db.file fid
            (extract_text_metadata_from_path (world rec.path)
              rec.path).mime_detected now) =
          some { rec with
                 mime_detected := some (extract_text_metadata_from_path
                   (world rec.path) rec.path).mime_detected,
                 updated_at := some now } := by
        rw [lookup_updateFileMime, hrec]
        rfl
      refine ⟨{ db with
          file_text_metadata :=
            insertOrReplace
              (insertOrReplace db.file_text_metadata fid
                (textRowOf (extract_text_metadata_from_path
                  (world rec.path) rec.path)))
              fid
              (textRowOf (extract_text_metadata_from_path
                (world rec.path) rec.path)),
          file :=
            updateFileMime
              (updateFileMime db.file fid
                (extract_text_metadata_from_path
                  (world rec.path) rec.path).mime_detected now)
              fid
              (extract_text_metadata_from_path
                (world rec.path) rec.path).mime_detected
              now' }, ?_, ?_, ?_⟩
      · simp only [populate_text_metadata]
        rw [hrec1]
      · exact insertOrReplace_idem _ _ _
      · exact insertOrReplace_count _ _ _

/-- Witness for C2: a one-file database over a PDF whose reader fails to
open; the second populate call succeeds and leaves the single
`file_pdf_metadata` row unchanged. -/
theorem populate_replace_idempotent_witness :
    ∃ db₂, populate_pdf_metadata true (fun _ => Except.error ()) 5
        ⟨[(1, ⟨"/f.pdf".toList, some "application/pdf".toList, some 0⟩)],
         [(1, pdfRowOf defaultPdfMeta)], []⟩ 1 = .ok db₂ ∧
      db₂.file_pdf_metadata = [(1, pdfRowOf defaultPdfMeta)] ∧
      (([(1, pdfRowOf defaultPdfMeta)] : List (Nat × PdfRow)).filter
        (fun p => p.1 == 1)).length = 1 := by
  exact populate_replace_idempotent.1 true (fun _ => Except.error ()) 0 5
    ⟨[(1, ⟨"/f.pdf".toList, none, none⟩)], [], []⟩
    ⟨[(1, ⟨"/f.pdf".toList, some "application/pdf".toList, some 0⟩)],
     [(1, pdfRowOf defaultPdfMeta)], []⟩ 1 rfl

/-! ## Non-fatal degradation of the PDF extractor -/

/-- A truncated/corrupt PDF whose container nonetheless opened: the
reader reports no encryption and every further access degenerates
(raises, or yields nothing). -/
def corruptOpenedPdf (rd : PdfReaderModel) : Prop :=
  rd.is_encrypted = false ∧
  (rd.metadata = .error () ∨ rd.metadata = .ok none) ∧
  (rd.pdf_header = .error () ∨ rd.pdf_header = .ok none) ∧
  (rd.numPages = .error () ∨ rd.numPages = .ok 0) ∧
  (rd.getFields = .error () ∨ rd.getFields = .ok false) ∧
  (rd.acroSig = .error () ∨ rd.acroSig = .ok false)

/-- C8: for a truncated/corrupt PDF whose container opened, the
extractor returns the default record — `page_count = 0` and every other
stored column null or 0 (spelled out on `pdfRowOf defaultPdfMeta`) —
without raising; `populate` then completes normally writing that record,
and the dispatcher reports the populate step as `SUCCESS`, which the
driver counts in the success bucket, not as a hard error. -/
theorem corrupt_pdf_degrades (rd : PdfReaderModel) (h : corruptOpenedPdf rd)
    (world : PyStr → Except Unit PdfReaderModel) (now : Nat) (db : DBState)
    (fid : Nat) (rec : FileRec)
    (hrec : List.lookup fid db.file = some rec)
    (hworld : world rec.path = .ok rd) :
    extract_pdf_metadata_from_path true (Except.ok rd) = defaultPdfMeta ∧
    pdfRowOf defaultPdfMeta =
      ⟨0, 0, 0, 0, 0, 0, none, none, none, none, none, none, none, none,
       none, none, none, 0, 0, none, none, none⟩ ∧
    (∃ db', populate_pdf_metadata true world now db fid = .ok db' ∧
      List.lookup fid db'.file_pdf_metadata =
        some (pdfRowOf defaultPdfMeta)) ∧
    (∀ oracle : PopulateOracle, oracle Family.pdf fid = .ok () →
      dispatch_metadata_extraction oracle fid (some ".pdf".toList) =
        statusSuccess Family.pdf ∧
      classifyStatus (statusSuccess Family.pdf) = Bucket.ok) := by
  have hex : extract_pdf_metadata_from_path true (Except.ok rd) =
      defaultPdfMeta := by
    obtain ⟨enc, dec, md, hdr, np, pt, pi, gf, asig⟩ := rd
    obtain ⟨henc, hmd, hh, hn, hg, ha⟩ := h
    dsimp only at henc hmd hh hn hg ha
    subst henc
    rcases hmd with rfl | rfl <;> rcases hh with rfl | rfl <;>
      rcases hn with rfl | rfl <;> rcases hg with rfl | rfl <;>
      rcases ha with rfl | rfl <;> rfl
  refine ⟨hex, rfl, ?_, ?_⟩
  · have hex' : extract_pdf_metadata_from_path true (world rec.path) =
        defaultPdfMeta := by rw [hworld]; exact hex
    refine ⟨{ db with
        file_pdf_metadata :=
          insertOrReplace db.file_pdf_metadata fid (pdfRowOf defaultPdfMeta),
        file :=
          updateFileMime db.file fid defaultPdfMeta.mime_detected now },
      ?_, ?_⟩
    · simp only [populate_pdf_metadata, hrec, hex']
    · dsimp only
      simp [insertOrReplace, List.lookup]
  · intro oracle hok
    constructor
    · rw [dispatch_eq_byKey oracle fid ".pdf".toList (by decide)]
      have hkey : metaRouterLookup (pyLower ".pdf".toList) =
          some Family.pdf := by decide
      simp only [dispatchByKey, hkey, hok]
    · decide

/-- Witness for C8: a concrete reader model in which every downstream
access raises produces the default record and a `SUCCESS` dispatch. -/
theorem corrupt_pdf_degrades_witness :
    extract_pdf_metadata_from_path true
      (Except.ok ⟨false, true, .error (), .error (), .error (),
        fun _ => .error (), fun _ => .error (), .error (), .error ()⟩) =
      defaultPdfMeta ∧
    dispatch_metadata_extraction okOracle 1 (some ".pdf".toList) =
      statusSuccess Family.pdf := by
  have h := corrupt_pdf_degrades
    ⟨false, true, .error (), .error (), .error (), fun _ => .error (),
      fun _ => .error (), .error (), .error ()⟩
    ⟨rfl, Or.inl rfl, Or.inl rfl, Or.inl rfl, Or.inl rfl, Or.inl rfl⟩
    (fun _ => .ok ⟨false, true, .error (), .error (), .error (),
      fun _ => .error (), fun _ => .error (), .error (), .error ()⟩)
    0 ⟨[(1, ⟨"/f.pdf".toList, none, none⟩)], [], []⟩ 1
    ⟨"/f.pdf".toList, none, none⟩ rfl rfl
  exact ⟨h.1, (h.2.2.2 okOracle rfl).1⟩

/-! ## The Type Sniffer (`Magic_Scan.py`)

File bytes are `List Nat`; the python-magic library and the `mimetypes`
fallback are oracles in `SniffEnv`; a container path handed to the
sniffer is an oracle for what `zipfile.ZipFile` finds there. -/

/-- `data.startswith(pre)`. -/
def bstart (data pre : List Nat) : Bool := pre.isPrefixOf data

/-- The whitespace bytes stripped by `bytes.lstrip()`. -/
def isWSByte (b : Nat) : Bool :=
  b = 32 || b = 9 || b = 10 || b = 13 || b = 11 || b = 12

/-- `bytes.lower()` on one byte: ASCII uppercase to lowercase. -/
def byteLower (b : Nat) : Nat := if 65 ≤ b ∧ b ≤ 90 then b + 32 else b

/-- The `MIME_TO_EXT` table (`Magic_Scan.py` lines 34-111), in source
order; note the empty-string extensions for ELF and Mach-O. -/
def MIME_TO_EXT : List (PyStr × PyStr) :=
  [("image/jpeg".toList, ".jpg".toList),
   ("image/jpg".toList, ".jpg".toList),
   ("image/png".toList, ".png".toList),
   ("image/gif".toList, ".gif".toList),
   ("image/bmp".toList, ".bmp".toList),
   ("image/webp".toList, ".webp".toList),
   ("image/tiff".toList, ".tif".toList),
   ("image/x-icon".toList, ".ico".toList),
   ("image/vnd.microsoft.icon".toList, ".ico".toList),
   ("image/vnd.adobe.photoshop".toList, ".psd".toList),
   ("audio/mpeg".toList, ".mp3".toList),
   ("audio/x-wav".toList, ".wav".toList),
   ("audio/wav".toList, ".wav".toList),
   ("audio/flac".toList, ".flac".toList),
   ("audio/ogg".toList, ".ogg".toList),
   ("audio/opus".toList, ".opus".toList),
   ("video/mp4".toList, ".mp4".toList),
   ("video/x-msvideo".toList, ".avi".toList),
   ("video/x-matroska".toList, ".mkv".toList),
   ("video/webm".toList, ".webm".toList),
   ("video/3gpp".toList, ".3gp".toList),
   ("application/zip".toList, ".zip".toList),
   ("application/x-7z-compressed".toList, ".7z".toList),
   ("application/x-rar-compressed".toList, ".rar".toList),
   ("application/gzip".toList, ".gz".toList),
   ("application/x-gzip".toList, ".gz".toList),
   ("application/x-bzip2".toList, ".bz2".toList),
   ("application/x-xz".toList, ".xz".toList),
   ("application/x-lz4".toList, ".lz4".toList),
   ("application/pdf".toList, ".pdf".toList),
   ("application/postscript".toList, ".ps".toList),
   ("application/rtf".toList, ".rtf".toList),
   ("text/rtf".toList, ".rtf".toList),
   ("text/plain".toList, ".txt".toList),
   ("text/html".toList, ".html".toList),
   ("application/xhtml+xml".toList, ".html".toList),
   ("application/xml".toList, ".xml".toList),
   ("text/xml".toList, ".xml".toList),
   ("application/json".toList, ".json".toList),
   ("application/vnd.openxmlformats-officedocument.wordprocessingml.document".toList,
    ".docx".toList),
   ("application/vnd.openxmlformats-officedocument.spreadsheetml.sheet".toList,
    ".xlsx".toList),
   ("application/vnd.openxmlformats-officedocument.presentationml.presentation".toList,
    ".pptx".toList),
   ("application/vnd.oasis.opendocument.text".toList, ".odt".toList),
   ("application/vnd.oasis.opendocument.spreadsheet".toList, ".ods".toList),
   ("application/vnd.oasis.opendocument.presentation".toList, ".odp".toList),
   ("application/epub+zip".toList, ".epub".toList),
   ("application/vnd.sqlite3".toList, ".sqlite".toList),
   ("application/x-sqlite3".toList, ".sqlite".toList),
   ("font/ttf".toList, ".ttf".toList),
   ("font/otf".toList, ".otf".toList),
   ("font/woff".toList, ".woff".toList),
   ("font/woff2".toList, ".woff2".toList),
   ("application/x-dosexec".toList, ".exe".toList),
   ("application/x-executable".toList, [] ),
   ("application/x-mach-binary".toList, [] )]

/-- `mime_to_extension` (lines 114-135): custom table first (an entry is
returned even when it is the empty string), then the `mimetypes`
fallback with the `.jpe` normalization; falsy inputs and falsy fallback
results give `None`. -/
def mime_to_extension (guessExt : PyStr → Option PyStr)
    (mime : Option PyStr) : Option PyStr :=
  match mime with
  | none => none
  | some m =>
    if m = [] then none
    else
      match List.lookup m MIME_TO_EXT with
      | some e => some e
      | none =>
        match guessExt m with
        | none => none
        | some e =>
          if e = [] then none
          else if e = ".jpe".toList then some ".jpg".toList
          else some e

/-- What `zipfile.ZipFile(path)` finds: the entry names and the outcome
of reading the embedded `mimetype` entry. -/
structure ZipContents where
  names : List PyStr
  mimetypeContent : Except Unit PyStr

/-- Opening the container as a ZIP: `.error` models any exception. -/
abbrev ZipOpen := Except Unit ZipContents

/-- `detect_zip_subtype` (lines 235-286): inspect entry-name prefixes and
the `mimetype` / `AndroidManifest.xml` / `META-INF/MANIFEST.MF` markers
to pick OOXML, OpenDocument, EPUB, APK, JAR/WAR or generic ZIP; an
unopenable archive degrades to the ZIP-like answer. -/
def detect_zip_subtype (z : ZipOpen) : PyStr × PyStr :=
  match z with
  | .error _ =>
    (".zip".toList, "ZIP-like file (invalid or unreadable as ZIP)".toList)
  | .ok c =>
    let lower_names := c.names.map pyLower
    if lower_names.any (fun n => bstartS n "word/".toList) then
      (".docx".toList, "Microsoft Word Open XML document (DOCX)".toList)
    else if lower_names.any (fun n => bstartS n "xl/".toList) then
      (".xlsx".toList, "Microsoft Excel Open XML spreadsheet (XLSX)".toList)
    else if lower_names.any (fun n => bstartS n "ppt/".toList) then
      (".pptx".toList,
       "Microsoft PowerPoint Open XML presentation (PPTX)".toList)
    else if lower_names.contains "mimetype".toList then
      let mt := match c.mimetypeContent with
        | .ok s => pyStrip s
        | .error _ => []
      if mt = "application/vnd.oasis.opendocument.text".toList then
        (".odt".toList, "OpenDocument Text (ODT)".toList)
      else if mt = "application/vnd.oasis.opendocument.spreadsheet".toList then
        (".ods".toList, "OpenDocument Spreadsheet (ODS)".toList)
      else if mt = "application/vnd.oasis.opendocument.presentation".toList then
        (".odp".toList, "OpenDocument Presentation (ODP)".toList)
      else if mt = "application/epub+zip".toList then
        (".epub".toList, "EPUB e-book".toList)
      else zipSubtypeRest lower_names
    else zipSubtypeRest lower_names
where
  /-- `str.startswith` for entry names. -/
  bstartS (s pre : PyStr) : Bool := pre.isPrefixOf s
  /-- The APK / JAR / WAR / generic-ZIP tail of the decision chain. -/
  zipSubtypeRest (lower_names : List PyStr) : PyStr × PyStr :=
    if lower_names.contains "androidmanifest.xml".toList then
      (".apk".toList, "Android application package (APK)".toList)
    else if lower_names.contains "meta-inf/manifest.mf".toList then
      if lower_names.any (fun n => "web-inf/".toList.isPrefixOf n) then
        (".war".toList, "Java Web Application Archive (WAR)".toList)
      else (".jar".toList, "Java archive (JAR)".toList)
    else (".zip".toList, "Generic ZIP archive".toList)

/-- Does the byte prefix carry one of the three ZIP signatures
(local file `PK\x03\x04`, end of central directory `PK\x05\x06`,
spanned/data descriptor `PK\x07\x08`)? -/
def zipPrefix (data : List Nat) : Bool :=
  bstart data [80, 75, 3, 4] || bstart data [80, 75, 5, 6] ||
    bstart data [80, 75, 7, 8]

/-- `detect_file_type_manual` (lines 289-460): the internal magic-number
table, tested in source order. -/
def detect_file_type_manual (data : List Nat) (container : Option ZipOpen) :
    Option PyStr × PyStr :=
  -- 1. archives & compression
  if zipPrefix data then
    match container with
    | some z => let r := detect_zip_subtype z; (some r.1, r.2)
    | none => (some ".zip".toList, "Generic ZIP archive".toList)
  else if bstart data [82, 97, 114, 33, 26, 7, 0] then
    (some ".rar".toList, "RAR archive (v1.5-4.x)".toList)
  else if bstart data [82, 97, 114, 33, 26, 7, 1, 0] then
    (some ".rar".toList, "RAR archive (v5+)".toList)
  else if bstart data [55, 122, 188, 175, 39, 28] then
    (some ".7z".toList, "7-Zip archive".toList)
  else if bstart data [31, 139, 8] then
    (some ".gz".toList, "GZIP compressed file".toList)
  else if bstart data [66, 90, 104] then
    (some ".bz2".toList, "BZIP2 compressed file".toList)
  else if bstart data [253, 55, 122, 88, 90, 0] then
    (some ".xz".toList, "XZ compressed file".toList)
  else if bstart data [4, 34, 77, 24] then
    (some ".lz4".toList, "LZ4 frame".toList)
  else if bstart data [77, 83, 67, 70] then
    (some ".cab".toList, "Microsoft Cabinet archive".toList)
  else if data.length ≥ 262 ∧
      (data.drop 257).take 5 = [117, 115, 116, 97, 114] then
    (some ".tar".toList, "TAR archive".toList)
  -- 2. images
  else if bstart data [255, 216, 255] then
    (some ".jpg".toList, "JPEG image".toList)
  else if bstart data [137, 80, 78, 71, 13, 10, 26, 10] then
    (some ".png".toList, "PNG image".toList)
  else if bstart data [71, 73, 70, 56, 55, 97] ||
      bstart data [71, 73, 70, 56, 57, 97] then
    (some ".gif".toList, "GIF image".toList)
  else if bstart data [66, 77] then
    (some ".bmp".toList, "BMP bitmap image".toList)
  else if bstart data [73, 73, 42, 0] then
    (some ".tif".toList, "TIFF image (little-endian)".toList)
  else if bstart data [77, 77, 0, 42] || bstart data [77, 77, 0, 43] then
    (some ".tif".toList, "TIFF image (big-endian)".toList)
  else if bstart data [0, 0, 1, 0] then
    (some ".ico".toList, "ICO icon (Windows)".toList)
  else if bstart data [0, 0, 2, 0] then
    (some ".cur".toList, "CUR cursor (Windows)".toList)
  else if bstart data [56, 66, 80, 83] then
    (some ".psd".toList, "Adobe Photoshop document (PSD)".toList)
  -- WEBP / RIFF family (falls through when the sub-type is unknown)
  else if bstart data [82, 73, 70, 70] && data.length ≥ 12 &&
      (data.drop 8).take 4 == [87, 69, 66, 80] then
    (some ".webp".toList, "WebP image".toList)
  else if bstart data [82, 73, 70, 70] && data.length ≥ 12 &&
      (data.drop 8).take 4 == [87, 65, 86, 69] then
    (some ".wav".toList, "WAVE audio (RIFF/WAVE)".toList)
  else if bstart data [82, 73, 70, 70] && data.length ≥ 12 &&
      (data.drop 8).take 4 == [65, 86, 73, 32] then
    (some ".avi".toList, "AVI video (RIFF/AVI)".toList)
  -- 3. audio / video
  else if bstart data [79, 103, 103, 83] then
    (some ".ogg".toList, "Ogg container (Vorbis/Opus/etc.)".toList)
  else if bstart data [102, 76, 97, 67] then
    (some ".flac".toList, "FLAC audio".toList)
  else if bstart data [73, 68, 51] then
    (some ".mp3".toList, "MP3 audio (ID3v2 tag)".toList)
  else if bstart data [26, 69, 223, 163] then
    (some ".mkv".toList, "Matroska/WebM container (MKV/WEBM)".toList)
  else if data.length ≥ 12 && (data.drop 4).take 4 == [102, 116, 121, 112] then
    -- ISO Base Media: dispatch on the brand at data[8:12]
    let brand := (data.drop 8).take 4
    if brand = [105, 115, 111, 109] ∨ brand = [109, 112, 52, 50] ∨
        brand = [109, 112, 52, 49] ∨ brand = [77, 83, 78, 86] then
      (some ".mp4".toList, "MP4/ISO Base Media file".toList)
    else if bstart brand [51, 103, 112] then
      (some ".3gp".toList, "3GPP media file".toList)
    else if brand = [113, 116, 32, 32] then
      (some ".mov".toList, "QuickTime movie".toList)
    else (some ".mp4".toList, "ISO Base Media (MP4-like)".toList)
  -- 4. documents / databases
  else if bstart data [37, 80, 68, 70, 45] then
    (some ".pdf".toList, "PDF document".toList)
  else if bstart data [37, 33, 80, 83, 45] then
    (some ".ps".toList, "PostScript document".toList)
  else if bstart data [123, 92, 114, 116, 102] then
    (some ".rtf".toList, "RTF document".toList)
  else if bstart data
      [83, 81, 76, 105, 116, 101, 32, 102, 111, 114, 109, 97, 116, 32, 51, 0] then
    (some ".sqlite".toList, "SQLite 3 database".toList)
  -- XML / HTML / JSON text heuristics on the lowercased stripped prefix
  else if bstart (((data.dropWhile isWSByte).take 16).map byteLower)
      [60, 63, 120, 109, 108] then
    (some ".xml".toList, "XML text document".toList)
  else if bstart (((data.dropWhile isWSByte).take 16).map byteLower)
      [60, 33, 100, 111, 99, 116, 121, 112, 101, 32, 104, 116, 109, 108] ||
      bstart (((data.dropWhile isWSByte).take 16).map byteLower)
      [60, 104, 116, 109, 108] then
    (some ".html".toList, "HTML document".toList)
  else if bstart (((data.dropWhile isWSByte).take 16).map byteLower) [123] ||
      bstart (((data.dropWhile isWSByte).take 16).map byteLower) [91] then
    (some ".json".toList, "JSON text (heuristic)".toList)
  else if bstart data [208, 207, 17, 224, 161, 177, 26, 225] then
    (some ".doc".toList, "OLE2 Compound File (DOC/XLS/PPT/etc.)".toList)
  -- 5. executables / binaries / scripts
  else if bstart data [77, 90] then
    (some ".exe".toList,
     "PE executable or library (Windows EXE/DLL/SYS)".toList)
  else if bstart data [127, 69, 76, 70] then
    (some [], "ELF executable or shared object (Unix/Linux)".toList)
  else if bstart data [254, 237, 250, 206] || bstart data [206, 250, 237, 254] ||
      bstart data [254, 237, 250, 207] ||
      bstart data [207, 250, 237, 254] then
    (some [], "Mach-O executable (macOS)".toList)
  else if bstart data [202, 254, 186, 190] then
    (some ".class".toList, "Java class file (or Mach-O fat binary)".toList)
  else if bstart data [35, 33] then
    (some ".sh".toList, "Script with shebang (shell / Python / etc.)".toList)
  -- 6. fonts
  else if bstart data [0, 1, 0, 0] then
    (some ".ttf".toList, "TrueType font".toList)
  else if bstart data [79, 84, 84, 79] then
    (some ".otf".toList, "OpenType font (CFF)".toList)
  else if bstart data [119, 79, 70, 70] then
    (some ".woff".toList, "WOFF web font".toList)
  else if bstart data [119, 79, 70, 50] then
    (some ".woff2".toList, "WOFF2 web font".toList)
  -- 7. captures
  else if bstart data [212, 195, 178, 161] || bstart data [161, 178, 195, 212] then
    (some ".pcap".toList, "PCAP capture file".toList)
  else if bstart data [10, 13, 13, 10] then
    (some ".pcapng".toList, "PCAP-NG capture file".toList)
  else (none, "Unknown or unsupported format".toList)

/-- The python-magic library and `mimetypes` as the sniffer sees them:
`desc`/`mime` are `None` when the library raised (or, for `mime`, when
absent). -/
structure SniffEnv where
  haveMagic : Bool
  desc : Option PyStr
  mime : Option PyStr
  guessExt : PyStr → Option PyStr

/-- `detect_file_type` (lines 463-511): ZIP-signature container
disambiguation first, then python-magic (a ZIP MIME result routed back
into the disambiguation), then the manual magic-number fallback. -/
def detect_file_type (env : SniffEnv) (data : List Nat)
    (container : Option ZipOpen) : Option PyStr × PyStr :=
  -- 0. special ZIP cases first, when the container path is available
  if zipPrefix data && container.isSome then
    match container with
    | some z => let r := detect_zip_subtype z; (some r.1, r.2)
    | none => detect_file_type_manual data container
  else
    -- 1. python-magic, when available
    if env.haveMagic then
      match env.mime with
      | some m =>
        if m ≠ [] then
          if m = "application/zip".toList && container.isSome then
            match container with
            | some z => let r := detect_zip_subtype z; (some r.1, r.2)
            | none => detect_file_type_manual data container
          else
            match mime_to_extension env.guessExt (some m) with
            | some e =>
              (some e,
               env.desc.getD ("Detected by python-magic: ".toList ++ m))
            | none => detect_file_type_manual data container
        else detect_file_type_manual data container
      | none => detect_file_type_manual data container
    -- 2. fallback: the manual magic-number detector
    else detect_file_type_manual data container

/-- C4: when the sniffer has the container's path, a byte prefix bearing
any of the three ZIP signatures short-circuits into the ZIP-structure
disambiguation — the result is `detect_zip_subtype`'s and is independent
of the MIME-sniffing library's behaviour — and a python-magic answer of
`application/zip` is likewise routed into the same disambiguation rather
than returned as generic zip. -/
theorem zip_disambiguation_precedence (env env' : SniffEnv)
    (data : List Nat) (z : ZipOpen) :
    (zipPrefix data = true →
      detect_file_type env data (some z) =
        (some (detect_zip_subtype z).1, (detect_zip_subtype z).2) ∧
      detect_file_type env data (some z) =
        detect_file_type env' data (some z)) ∧
    (env.haveMagic = true → env.mime = some "application/zip".toList →
      detect_file_type env data (some z) =
        (some (detect_zip_subtype z).1, (detect_zip_subtype z).2)) := by
  constructor
  · intro hz
    have he : ∀ e : SniffEnv, detect_file_type e data (some z) =
        (some (detect_zip_subtype z).1, (detect_zip_subtype z).2) := by
      intro e
      simp [detect_file_type, hz]
    exact ⟨he env, (he env).trans (he env').symm⟩
  · intro hm hmime
    by_cases hz : zipPrefix data = true
    · simp [detect_file_type, hz]
    · have hz' : zipPrefix data = false := Bool.eq_false_iff.mpr hz
      have hne : ("application/zip".toList : PyStr) ≠ [] := by decide
      simp [detect_file_type, hz', hm, hmime, hne]

/-- Witness for C4: a ZIP-signature prefix over a container holding a
`word/` entry is classified `.docx` by structure, with the magic library
claiming to be present but returning nothing useful. -/
theorem zip_disambiguation_precedence_witness :
    detect_file_type ⟨true, none, some "application/zip".toList,
        fun _ => none⟩ [80, 75, 3, 4, 0, 0]
      (some (Except.ok ⟨["word/document.xml".toList], .error ()⟩)) =
      (some ".docx".toList,
       "Microsoft Word Open XML document (DOCX)".toList) := by
  have h := (zip_disambiguation_precedence
    ⟨true, none, some "application/zip".toList, fun _ => none⟩
    ⟨false, none, none, fun _ => none⟩ [80, 75, 3, 4, 0, 0]
    (Except.ok ⟨["word/document.xml".toList], .error ()⟩)).1 (by decide)
  exact h.1.trans (by decide)

/-! ## STL ASCII/binary classification (`ddd_metadata.py`)

The embedding covers the classification logic of `_parse_stl`
(lines 16-48): the `solid` header test, the ASCII read probe, and the
binary branch's triangle-count read. -/

/-- The bytes of `solid`. -/
def solidBytes : List Nat := [115, 111, 108, 105, 100]

/-- `b'solid' in header[:5]` over the 80-byte header: the pattern is
exactly five bytes, so containment in the first five bytes is equality
with them. -/
def stlHeaderSolid (bytes : List Nat) : Bool := bytes.take 5 = solidBytes

/-- Whether `open(path, 'r', encoding='ascii')` followed by `read(1024)`
succeeds: the leading kilobyte decodes as ASCII. -/
def stlAsciiProbeOk (bytes : List Nat) : Bool :=
  (bytes.take 1024).all (fun b => b < 128)

/-- The ASCII-vs-binary classification of `_parse_stl` (lines 16-32):
a file is ASCII (`is_binary = 0`) exactly when its header starts with
`solid` and the ASCII read probe succeeds; everything else is binary. -/
def stlIsBinary (bytes : List Nat) : Bool :=
  if stlHeaderSolid bytes then
    if stlAsciiProbeOk bytes then false else true
  else true

/-- A little-endian `uint32` from four bytes (`struct.unpack('<I', _)`). -/
def le32 (a b c d : Nat) : Nat :=
  a + 256 * b + 65536 * c + 16777216 * d

/-- The binary branch's triangle-count read (lines 36-47): with at least
84 bytes, the `uint32` at offset 80. -/
def stlBinaryFaceCount (bytes : List Nat) : Option Nat :=
  if bytes.length ≥ 84 then
    match (bytes.drop 80).take 4 with
    | [a, b, c, d] => some (le32 a b c d)
    | _ => none
  else none

/-- Modelled from the spec: "the file parses as a binary triangle count"
(the check the spec says is performed alongside the header test) — the
`uint32` at offset 80 reads as a triangle count consistent with the
binary STL layout of 84 header bytes plus 50 bytes per triangle. -/
def stlParsesAsBinarySpec (bytes : List Nat) : Prop :=
  ∃ n, stlBinaryFaceCount bytes = some n ∧ bytes.length = 84 + 50 * n

/-- A binary STL whose header starts with `solid` and all of whose bytes
are ASCII: `solid` padded to 80 bytes with spaces, little-endian triangle
count 1, and 50 ASCII bytes of triangle data. -/
def stlAmbiguousBytes : List Nat :=
  solidBytes ++ List.replicate 75 32 ++ [1, 0, 0, 0] ++ List.replicate 50 65

set_option maxRecDepth 4000 in
/-- C9 counterexample: `stlAmbiguousBytes` begins with the ASCII string
`solid` and parses as a binary triangle count (count 1, size 84 + 50),
yet `_parse_stl` classifies it as ASCII (`is_binary = 0`) — the binary
triangle-count check the claim describes is never performed, and such a
file is not classified as binary. -/
theorem stl_solid_binary_misclassified :
    stlHeaderSolid stlAmbiguousBytes = true ∧
    stlParsesAsBinarySpec stlAmbiguousBytes ∧
    stlIsBinary stlAmbiguousBytes = false := by
  refine ⟨by decide, ⟨1, by decide, by decide⟩, by decide⟩

/-- C9 (amended): `_parse_stl` classifies a file as ASCII exactly when
its first five bytes are `solid` and the leading kilobyte decodes as
ASCII; the binary triangle-count parse is not consulted, so a file whose
header begins with `solid` is classified binary only when the ASCII read
probe fails. -/
theorem stl_ascii_classification (bytes : List Nat) :
    stlIsBinary bytes = false ↔
      (stlHeaderSolid bytes = true ∧ stlAsciiProbeOk bytes = true) := by
  unfold stlIsBinary
  split
  · split
    · simp_all
    · simp_all
  · simp_all

end Locard
